import Mathlib

/-! VirtualDisplaySurface: the acquire, post, commit, release state machine.

A shallow embedding of
`services/surfaceflinger/DisplayHardware/VirtualDisplaySurface.cpp`.

The surface talks to three collaborators whose code lives elsewhere: the
`BufferQueueInterposer` (acquireBuffer, pullEmptyBuffer, releaseBuffer), the
`HWComposer` (fbPost, setOutputBuffer, getAndResetReleaseFence,
getLastRetireFence) and `Fence::merge`.  They are taken as parameters, bundled
in `Env`.  Every collaborator answer may depend on the whole history of
collaborator calls made so far (the `Trace`), so a fixed `Env` stands for an
arbitrary deterministic behaviour of the outside world, and quantifying over
`Env` quantifies over all of them.  Each operation of the surface threads the
trace through and appends one `Event` per collaborator call, in call order.

The status constants `NO_ERROR`, `INVALID_OPERATION` and
`BufferQueueInterposer::NO_BUFFER_AVAILABLE` come from headers that are not
part of the embedded file; they are fields of `Env` as well, and a theorem
that needs two of them to differ says so in a hypothesis.

`Mutex::Autolock` is not modelled: the embedding is sequential.  `ALOGE` and
`ALOGE_IF` only write to the log and are left out.
-/

namespace android

/-- The C++ `status_t` (an `int32_t`). -/
abbrev status_t := Int

/-- A strong pointer `sp<T>`; `none` is the NULL pointer. -/
abbrev sp (α : Type) := Option α

/-- A `String8`, as its sequence of `char`s. -/
abbrev String8 := List Char

/-- A `GraphicBuffer` object, identified by an opaque handle. -/
structure GraphicBuffer where
  handle : Nat
deriving DecidableEq, Repr

/-- A `Fence` object, identified by an opaque handle. -/
structure Fence where
  handle : Nat
deriving DecidableEq, Repr

/-- The downstream `IGraphicBufferProducer` handed to the constructor. -/
structure SinkProducer where
  handle : Nat
deriving DecidableEq, Repr

/-- The object built by `new BufferQueueInterposer(sink, name)`. -/
structure BufferQueueInterposer where
  sink : sp SinkProducer
  name : String8
deriving DecidableEq, Repr

/-- What an `sp<IGraphicBufferProducer>` of this file can point to: the sink
itself, or the interposer (which is an `IGraphicBufferProducer` too). -/
inductive IGraphicBufferProducer where
  | ofSink (p : SinkProducer)
  | ofInterposer (i : BufferQueueInterposer)
deriving DecidableEq, Repr

/-- The `HWComposer` the surface keeps a reference to. -/
structure HWComposer where
  handle : Nat
deriving DecidableEq, Repr

/-- One collaborator call, with its arguments and what it returned. -/
inductive Event where
  | acquireBuffer (ret : status_t) (buf : sp GraphicBuffer) (fence : sp Fence)
  | pullEmptyBuffer (ret : status_t)
  | releaseBuffer (fence : sp Fence) (ret : status_t)
  | fbPost (id : Int) (fence : sp Fence) (buf : sp GraphicBuffer) (ret : status_t)
  | setOutputBuffer (id : Int) (fence : sp Fence) (buf : sp GraphicBuffer) (ret : status_t)
  | getAndResetReleaseFence (id : Int) (ret : sp Fence)
  | getLastRetireFence (id : Int) (ret : sp Fence)
deriving DecidableEq, Repr

/-- The collaborator calls made so far, oldest first. -/
abbrev Trace := List Event

/-- What `acquireBuffer(&buf, &fence)` leaves behind: its status and the values
of the two out-parameters after the call. -/
structure AcquireResult where
  status : status_t
  buf : sp GraphicBuffer
  fence : sp Fence
deriving DecidableEq, Repr

/-- The world outside `VirtualDisplaySurface.cpp`.  The first argument of every
collaborator is the history of calls before this one; `acquireBuffer` also gets
the current values of its two out-parameters. -/
structure Env where
  NO_ERROR : status_t
  INVALID_OPERATION : status_t
  NO_BUFFER_AVAILABLE : status_t
  NO_FENCE : sp Fence
  merge : String8 → sp Fence → sp Fence → sp Fence
  acquireBuffer : Trace → sp GraphicBuffer → sp Fence → AcquireResult
  pullEmptyBuffer : Trace → status_t
  releaseBuffer : Trace → sp Fence → status_t
  fbPost : Trace → Int → sp Fence → sp GraphicBuffer → status_t
  setOutputBuffer : Trace → Int → sp Fence → sp GraphicBuffer → status_t
  getAndResetReleaseFence : Trace → Int → sp Fence
  getLastRetireFence : Trace → Int → sp Fence

/-- The data members of `VirtualDisplaySurface` (the mutex apart). -/
structure VirtualDisplaySurface where
  mHwc : HWComposer
  mDisplayId : Int
  mName : String8
  mInterposer : sp BufferQueueInterposer
  mSourceProducer : sp IGraphicBufferProducer
  mAcquiredBuffer : sp GraphicBuffer
deriving DecidableEq, Repr

/-- The outcome of a member function returning `status_t`. -/
structure Outcome where
  result : status_t
  surface : VirtualDisplaySurface
  trace : Trace
deriving DecidableEq, Repr

/-- The constructor: an interposer is created exactly when `dispId >= 0`. -/
def VirtualDisplaySurface.construct (hwc : HWComposer) (dispId : Int)
    (sink : sp SinkProducer) (name : String8) : VirtualDisplaySurface :=
  if 0 ≤ dispId then
    { mHwc := hwc, mDisplayId := dispId, mName := name,
      mInterposer := some ⟨sink, name⟩,
      mSourceProducer := some (IGraphicBufferProducer.ofInterposer ⟨sink, name⟩),
      mAcquiredBuffer := none }
  else
    { mHwc := hwc, mDisplayId := dispId, mName := name,
      mInterposer := none,
      mSourceProducer := sink.map IGraphicBufferProducer.ofSink,
      mAcquiredBuffer := none }

/-- The accessor `getIGraphicBufferProducer`. -/
def VirtualDisplaySurface.getIGraphicBufferProducer (s : VirtualDisplaySurface) :
    sp IGraphicBufferProducer :=
  s.mSourceProducer

/-- The member `compositionComplete`: `return NO_ERROR;`. -/
def VirtualDisplaySurface.compositionComplete (E : Env) (s : VirtualDisplaySurface)
    (t : Trace) : Outcome :=
  ⟨E.NO_ERROR, s, t⟩

/-- Lines 76 to 83 of `advanceFrame`, reached with the status and
out-parameters `a` of the last `acquireBuffer` call: return on an acquisition
failure, else `fbPost`, and `setOutputBuffer` only when `fbPost` succeeded.
`acquireBuffer` has written straight into `mAcquiredBuffer`, so `a.buf` is the
held slot on every path. -/
def VirtualDisplaySurface.advanceFramePost (E : Env) (s : VirtualDisplaySurface)
    (a : AcquireResult) (t : Trace) : Outcome :=
  if a.status ≠ E.NO_ERROR then
    ⟨a.status, { s with mAcquiredBuffer := a.buf }, t⟩
  else
    let r := E.fbPost t s.mDisplayId a.fence a.buf
    let t1 := t ++ [Event.fbPost s.mDisplayId a.fence a.buf r]
    if r = E.NO_ERROR then
      let r2 := E.setOutputBuffer t1 s.mDisplayId a.fence a.buf
      ⟨r2, { s with mAcquiredBuffer := a.buf },
        t1 ++ [Event.setOutputBuffer s.mDisplayId a.fence a.buf r2]⟩
    else
      ⟨r, { s with mAcquiredBuffer := a.buf }, t1⟩

/-- The member `advanceFrame`.  The local `sp<Fence> fence` starts as NULL.
The second `acquireBuffer` call gets the out-parameters as the first one left
them. -/
def VirtualDisplaySurface.advanceFrame (E : Env) (s : VirtualDisplaySurface)
    (t : Trace) : Outcome :=
  match s.mInterposer with
  | none => ⟨E.NO_ERROR, s, t⟩
  | some _ =>
    match s.mAcquiredBuffer with
    | some _ => ⟨E.INVALID_OPERATION, s, t⟩
    | none =>
      let a1 := E.acquireBuffer t none none
      let t1 := t ++ [Event.acquireBuffer a1.status a1.buf a1.fence]
      if a1.status = E.NO_BUFFER_AVAILABLE then
        let p := E.pullEmptyBuffer t1
        let t2 := t1 ++ [Event.pullEmptyBuffer p]
        if p ≠ E.NO_ERROR then
          ⟨p, { s with mAcquiredBuffer := a1.buf }, t2⟩
        else
          let a2 := E.acquireBuffer t2 a1.buf a1.fence
          VirtualDisplaySurface.advanceFramePost E s a2
            (t2 ++ [Event.acquireBuffer a2.status a2.buf a2.fence])
      else
        VirtualDisplaySurface.advanceFramePost E s a1 t1

/-- The label `String8::format("HWC done: %.21s", mName.string())`: at most 21
characters of the C string, which ends at the first NUL. -/
def hwcDoneLabel (name : String8) : String8 :=
  "HWC done: ".toList ++ (name.takeWhile (fun c => c ≠ Char.ofNat 0)).take 21

/-- The member `onFrameCommitted` (it returns `void`): the new surface and the
trace.  The held slot is cleared whatever `releaseBuffer` returned. -/
def VirtualDisplaySurface.onFrameCommitted (E : Env) (s : VirtualDisplaySurface)
    (t : Trace) : VirtualDisplaySurface × Trace :=
  match s.mInterposer with
  | none => (s, t)
  | some _ =>
    match s.mAcquiredBuffer with
    | none => (s, t)
    | some _ =>
      let fbFence := E.getAndResetReleaseFence t s.mDisplayId
      let t1 := t ++ [Event.getAndResetReleaseFence s.mDisplayId fbFence]
      let outFence := E.getLastRetireFence t1 s.mDisplayId
      let t2 := t1 ++ [Event.getLastRetireFence s.mDisplayId outFence]
      let fence := E.merge (hwcDoneLabel s.mName) fbFence outFence
      let result := E.releaseBuffer t2 fence
      ({ s with mAcquiredBuffer := none }, t2 ++ [Event.releaseBuffer fence result])

/-- The frame operations a caller can invoke on a surface. -/
inductive Op where
  | advanceFrame
  | onFrameCommitted
  | compositionComplete
deriving DecidableEq, Repr

/-- One entry of a call log: the operation and the status it returned (`none`
for `onFrameCommitted`, which returns `void`). -/
structure LogEntry where
  op : Op
  ret : Option status_t
deriving DecidableEq, Repr

/-- Run one operation: its log entry, the new surface and the new trace. -/
def step (E : Env) (op : Op) (s : VirtualDisplaySurface) (t : Trace) :
    LogEntry × VirtualDisplaySurface × Trace :=
  match op with
  | Op.advanceFrame =>
    let o := s.advanceFrame E t
    (⟨Op.advanceFrame, some o.result⟩, o.surface, o.trace)
  | Op.onFrameCommitted =>
    let o := s.onFrameCommitted E t
    (⟨Op.onFrameCommitted, none⟩, o.1, o.2)
  | Op.compositionComplete =>
    let o := s.compositionComplete E t
    (⟨Op.compositionComplete, some o.result⟩, o.surface, o.trace)

/-- Run a finite sequence of operations, collecting the call log. -/
def run (E : Env) : List Op → VirtualDisplaySurface → Trace →
    List LogEntry × VirtualDisplaySurface × Trace
  | [], s, t => ([], s, t)
  | op :: ops, s, t =>
    let r := step E op s t
    let rest := run E ops r.2.1 r.2.2
    (r.1 :: rest.1, rest.2.1, rest.2.2)

/-- Number of `acquireBuffer` calls in a trace. -/
def countAcquire : Trace → Nat
  | [] => 0
  | Event.acquireBuffer _ _ _ :: t => countAcquire t + 1
  | _ :: t => countAcquire t

/-- Number of `pullEmptyBuffer` calls in a trace. -/
def countPull : Trace → Nat
  | [] => 0
  | Event.pullEmptyBuffer _ :: t => countPull t + 1
  | _ :: t => countPull t

/-- Is the event a call to `fbPost`? -/
def Event.isFbPost : Event → Bool
  | Event.fbPost _ _ _ _ => true
  | _ => false

/-- Is the event a call to `setOutputBuffer`? -/
def Event.isSetOutputBuffer : Event → Bool
  | Event.setOutputBuffer _ _ _ _ => true
  | _ => false

/-- The status a collaborator call returned, for the calls that return one. -/
def Event.status : Event → Option status_t
  | Event.acquireBuffer r _ _ => some r
  | Event.pullEmptyBuffer r => some r
  | Event.releaseBuffer _ r => some r
  | Event.fbPost _ _ _ r => some r
  | Event.setOutputBuffer _ _ _ r => some r
  | Event.getAndResetReleaseFence _ _ => none
  | Event.getLastRetireFence _ _ => none

/-- The answer of the first `acquireBuffer` call of an `advanceFrame` that
starts at trace `t` with an empty held slot. -/
def firstAcquire (E : Env) (t : Trace) : AcquireResult :=
  E.acquireBuffer t none none

/-- The trace right after that first `acquireBuffer` call. -/
def afterFirstAcquire (E : Env) (t : Trace) : Trace :=
  t ++ [Event.acquireBuffer (firstAcquire E t).status (firstAcquire E t).buf
    (firstAcquire E t).fence]

/-- The answer of a `pullEmptyBuffer` call made right after the first
`acquireBuffer`. -/
def pullAnswer (E : Env) (t : Trace) : status_t :=
  E.pullEmptyBuffer (afterFirstAcquire E t)

/-- The trace right after that `pullEmptyBuffer` call. -/
def afterPull (E : Env) (t : Trace) : Trace :=
  afterFirstAcquire E t ++ [Event.pullEmptyBuffer (pullAnswer E t)]

/-- The answer of an `acquireBuffer` call retried right after the pull, its
out-parameters being as the first call left them. -/
def retryAcquire (E : Env) (t : Trace) : AcquireResult :=
  E.acquireBuffer (afterPull E t) (firstAcquire E t).buf (firstAcquire E t).fence

/-- The trace right after the retried `acquireBuffer` call. -/
def afterRetry (E : Env) (t : Trace) : Trace :=
  afterPull E t ++ [Event.acquireBuffer (retryAcquire E t).status (retryAcquire E t).buf
    (retryAcquire E t).fence]

/-- The acquisition of an `advanceFrame` started at trace `t` succeeds with
out-parameters `a`, leaving trace `u`: either the first `acquireBuffer` returns
`NO_ERROR` (and that is not `NO_BUFFER_AVAILABLE`), or it reports
`NO_BUFFER_AVAILABLE`, `pullEmptyBuffer` returns `NO_ERROR` and the retried
`acquireBuffer` returns `NO_ERROR`. -/
def AcquisitionSucceeds (E : Env) (t : Trace) (a : AcquireResult) (u : Trace) : Prop :=
  ((firstAcquire E t).status ≠ E.NO_BUFFER_AVAILABLE ∧ (firstAcquire E t).status = E.NO_ERROR ∧
      a = firstAcquire E t ∧ u = afterFirstAcquire E t) ∨
  ((firstAcquire E t).status = E.NO_BUFFER_AVAILABLE ∧ pullAnswer E t = E.NO_ERROR ∧
      (retryAcquire E t).status = E.NO_ERROR ∧ a = retryAcquire E t ∧ u = afterRetry E t)

instance (E : Env) (t : Trace) (a : AcquireResult) (u : Trace) :
    Decidable (AcquisitionSucceeds E t a u) := by
  unfold AcquisitionSucceeds; infer_instance

/-- The acquisition of an `advanceFrame` started at trace `t` fails with status
`r`, leaving trace `u`: the first `acquireBuffer` returns an error other than
`NO_BUFFER_AVAILABLE`, or it reports `NO_BUFFER_AVAILABLE` and `pullEmptyBuffer`
fails, or the pull succeeds and the retried `acquireBuffer` fails. -/
def AcquisitionFails (E : Env) (t : Trace) (r : status_t) (u : Trace) : Prop :=
  ((firstAcquire E t).status ≠ E.NO_BUFFER_AVAILABLE ∧ (firstAcquire E t).status ≠ E.NO_ERROR ∧
      r = (firstAcquire E t).status ∧ u = afterFirstAcquire E t) ∨
  ((firstAcquire E t).status = E.NO_BUFFER_AVAILABLE ∧ pullAnswer E t ≠ E.NO_ERROR ∧
      r = pullAnswer E t ∧ u = afterPull E t) ∨
  ((firstAcquire E t).status = E.NO_BUFFER_AVAILABLE ∧ pullAnswer E t = E.NO_ERROR ∧
      (retryAcquire E t).status ≠ E.NO_ERROR ∧ r = (retryAcquire E t).status ∧
      u = afterRetry E t)

instance (E : Env) (t : Trace) (r : status_t) (u : Trace) :
    Decidable (AcquisitionFails E t r u) := by
  unfold AcquisitionFails; infer_instance

/-- A failing `acquireBuffer` yields no buffer: whenever it returns a status
other than `NO_ERROR`, its buffer out-parameter is NULL after the call. -/
def FailedAcquireYieldsNone (E : Env) : Prop :=
  ∀ t b f, (E.acquireBuffer t b f).status ≠ E.NO_ERROR → (E.acquireBuffer t b f).buf = none

/-- A successful `acquireBuffer` yields a buffer: whenever it returns `NO_ERROR`,
its buffer out-parameter is not NULL after the call. -/
def SuccessfulAcquireYieldsBuffer (E : Env) : Prop :=
  ∀ t b f, (E.acquireBuffer t b f).status = E.NO_ERROR → (E.acquireBuffer t b f).buf ≠ none

/-- The events of `u` that come after the first `t.length` ones: the calls made
by an operation that started at trace `t` and ended at trace `u`. -/
def newEvents (t u : Trace) : Trace :=
  u.drop t.length

/-- A call of `pre` that did not fail: it returned `NO_ERROR`, or it is the
leading `acquireBuffer` call reporting `NO_BUFFER_AVAILABLE`, from which
`advanceFrame` recovers by pulling an empty buffer. -/
def NotFailed (E : Env) (pre : Trace) (e : Event) : Prop :=
  e.status = some E.NO_ERROR ∨
    (pre.head? = some e ∧ ∃ b f, e = Event.acquireBuffer E.NO_BUFFER_AVAILABLE b f)

/-- A scripted world for concrete runs: `acquireBuffer` answers `acq` (status and
buffer handle), `pullEmptyBuffer` answers `pull`, `fbPost` answers `post`,
`setOutputBuffer` answers `out`, `releaseBuffer` answers `rel`; the status
constants are 0, -38 and 2. -/
def scriptedEnv (acq : Trace → status_t × sp GraphicBuffer) (pull post out rel : status_t) :
    Env :=
  { NO_ERROR := 0, INVALID_OPERATION := -38, NO_BUFFER_AVAILABLE := 2,
    NO_FENCE := some ⟨0⟩,
    merge := fun _ a b => some ⟨(a.elim 0 Fence.handle) + (b.elim 0 Fence.handle)⟩,
    acquireBuffer := fun t _ _ => ⟨(acq t).1, (acq t).2, some ⟨7⟩⟩,
    pullEmptyBuffer := fun _ => pull,
    releaseBuffer := fun _ _ => rel,
    fbPost := fun _ _ _ _ => post,
    setOutputBuffer := fun _ _ _ _ => out,
    getAndResetReleaseFence := fun _ _ => some ⟨10⟩,
    getLastRetireFence := fun _ _ => some ⟨20⟩ }

/-- An Interposed surface for display 0, fresh from the constructor. -/
def surface0 : VirtualDisplaySurface :=
  VirtualDisplaySurface.construct ⟨1⟩ 0 (some ⟨5⟩) "enc".toList

/-- The destructor.  It tests only `mAcquiredBuffer` and then calls
`mInterposer->releaseBuffer(Fence::NO_FENCE)` without testing `mInterposer`:
the result is `none` when that call would go through a NULL interposer, and
else the trace after destruction. -/
def VirtualDisplaySurface.destructor (E : Env) (s : VirtualDisplaySurface) (t : Trace) :
    Option Trace :=
  match s.mAcquiredBuffer with
  | none => some t
  | some _ =>
    match s.mInterposer with
    | none => none
    | some _ =>
      let result := E.releaseBuffer t E.NO_FENCE
      some (t ++ [Event.releaseBuffer E.NO_FENCE result])

/-- Number of `acquireBuffer` calls in a trace that returned `NO_ERROR`. -/
def countAcquireOK (E : Env) : Trace → Nat
  | [] => 0
  | Event.acquireBuffer r _ _ :: t =>
    if r = E.NO_ERROR then countAcquireOK E t + 1 else countAcquireOK E t
  | _ :: t => countAcquireOK E t

/-- Number of `releaseBuffer` calls in a trace. -/
def countRelease : Trace → Nat
  | [] => 0
  | Event.releaseBuffer _ _ :: t => countRelease t + 1
  | _ :: t => countRelease t

/-- The buffer account of a surface with its trace: the successful
`acquireBuffer` calls exceed the `releaseBuffer` calls by one when a buffer is
held, and equal them when the slot is empty. -/
def Balanced (E : Env) (s : VirtualDisplaySurface) (t : Trace) : Prop :=
  countAcquireOK E t = countRelease t + (if s.mAcquiredBuffer = none then 0 else 1)

instance (E : Env) (s : VirtualDisplaySurface) (t : Trace) : Decidable (Balanced E s t) := by
  unfold Balanced; infer_instance

/-- A Direct surface for display -1, fresh from the constructor. -/
def surfaceDirect : VirtualDisplaySurface :=
  VirtualDisplaySurface.construct ⟨1⟩ (-1) (some ⟨5⟩) "enc".toList

/-! ## Unfolding lemmas -/

theorem advanceFrame_of_held (E : Env) (s : VirtualDisplaySurface) (t : Trace)
    (hI : s.mInterposer ≠ none) (hH : s.mAcquiredBuffer ≠ none) :
    s.advanceFrame E t = ⟨E.INVALID_OPERATION, s, t⟩ := by
  cases hi : s.mInterposer with
  | none => exact absurd hi hI
  | some i =>
    cases hb : s.mAcquiredBuffer with
    | none => exact absurd hb hH
    | some b => simp [VirtualDisplaySurface.advanceFrame, hi, hb]

theorem advanceFrame_of_idle (E : Env) (s : VirtualDisplaySurface) (t : Trace)
    (hI : s.mInterposer ≠ none) (hN : s.mAcquiredBuffer = none) :
    s.advanceFrame E t =
      if (firstAcquire E t).status = E.NO_BUFFER_AVAILABLE then
        if pullAnswer E t ≠ E.NO_ERROR then
          ⟨pullAnswer E t, { s with mAcquiredBuffer := (firstAcquire E t).buf }, afterPull E t⟩
        else
          VirtualDisplaySurface.advanceFramePost E s (retryAcquire E t) (afterRetry E t)
      else
        VirtualDisplaySurface.advanceFramePost E s (firstAcquire E t)
          (afterFirstAcquire E t) := by
  cases hi : s.mInterposer with
  | none => exact absurd hi hI
  | some i =>
    simp [VirtualDisplaySurface.advanceFrame, hi, hN, firstAcquire, pullAnswer, afterPull,
      retryAcquire, afterRetry, afterFirstAcquire]

theorem advanceFrame_of_direct (E : Env) (s : VirtualDisplaySurface) (t : Trace)
    (hD : s.mInterposer = none) :
    s.advanceFrame E t = ⟨E.NO_ERROR, s, t⟩ := by
  simp [VirtualDisplaySurface.advanceFrame, hD]

theorem onFrameCommitted_of_direct (E : Env) (s : VirtualDisplaySurface) (t : Trace)
    (hD : s.mInterposer = none) :
    s.onFrameCommitted E t = (s, t) := by
  simp [VirtualDisplaySurface.onFrameCommitted, hD]

theorem onFrameCommitted_of_idle (E : Env) (s : VirtualDisplaySurface) (t : Trace)
    (hN : s.mAcquiredBuffer = none) :
    s.onFrameCommitted E t = (s, t) := by
  cases hi : s.mInterposer with
  | none => exact onFrameCommitted_of_direct E s t hi
  | some i => simp [VirtualDisplaySurface.onFrameCommitted, hi, hN]

theorem onFrameCommitted_of_held (E : Env) (s : VirtualDisplaySurface) (t : Trace)
    (hI : s.mInterposer ≠ none) (hH : s.mAcquiredBuffer ≠ none) :
    s.onFrameCommitted E t =
      ({ s with mAcquiredBuffer := none },
        t ++ [Event.getAndResetReleaseFence s.mDisplayId
                (E.getAndResetReleaseFence t s.mDisplayId)] ++
          [Event.getLastRetireFence s.mDisplayId
            (E.getLastRetireFence (t ++ [Event.getAndResetReleaseFence s.mDisplayId
                (E.getAndResetReleaseFence t s.mDisplayId)]) s.mDisplayId)] ++
          [Event.releaseBuffer
            (E.merge (hwcDoneLabel s.mName) (E.getAndResetReleaseFence t s.mDisplayId)
              (E.getLastRetireFence (t ++ [Event.getAndResetReleaseFence s.mDisplayId
                (E.getAndResetReleaseFence t s.mDisplayId)]) s.mDisplayId))
            (E.releaseBuffer
              (t ++ [Event.getAndResetReleaseFence s.mDisplayId
                  (E.getAndResetReleaseFence t s.mDisplayId)] ++
                [Event.getLastRetireFence s.mDisplayId
                  (E.getLastRetireFence (t ++ [Event.getAndResetReleaseFence s.mDisplayId
                    (E.getAndResetReleaseFence t s.mDisplayId)]) s.mDisplayId)])
              (E.merge (hwcDoneLabel s.mName) (E.getAndResetReleaseFence t s.mDisplayId)
                (E.getLastRetireFence (t ++ [Event.getAndResetReleaseFence s.mDisplayId
                  (E.getAndResetReleaseFence t s.mDisplayId)]) s.mDisplayId)))]) := by
  cases hi : s.mInterposer with
  | none => exact absurd hi hI
  | some i =>
    cases hb : s.mAcquiredBuffer with
    | none => exact absurd hb hH
    | some b => simp [VirtualDisplaySurface.onFrameCommitted, hi, hb]

theorem advanceFramePost_surface (E : Env) (s : VirtualDisplaySurface) (a : AcquireResult)
    (u : Trace) :
    (VirtualDisplaySurface.advanceFramePost E s a u).surface =
      { s with mAcquiredBuffer := a.buf } := by
  unfold VirtualDisplaySurface.advanceFramePost
  dsimp only
  split_ifs <;> rfl

theorem advanceFramePost_ok_status (E : Env) (s : VirtualDisplaySurface) (a : AcquireResult)
    (u : Trace) (h : (VirtualDisplaySurface.advanceFramePost E s a u).result = E.NO_ERROR) :
    a.status = E.NO_ERROR := by
  unfold VirtualDisplaySurface.advanceFramePost at h
  by_contra hc
  simp [hc] at h

theorem advanceFrame_mInterposer (E : Env) (s : VirtualDisplaySurface) (t : Trace) :
    (s.advanceFrame E t).surface.mInterposer = s.mInterposer := by
  by_cases hI : s.mInterposer = none
  · rw [advanceFrame_of_direct E s t hI]
  · by_cases hH : s.mAcquiredBuffer = none
    · rw [advanceFrame_of_idle E s t hI hH]
      split_ifs <;> simp [advanceFramePost_surface]
    · rw [advanceFrame_of_held E s t hI hH]

theorem onFrameCommitted_mInterposer (E : Env) (s : VirtualDisplaySurface) (t : Trace) :
    (s.onFrameCommitted E t).1.mInterposer = s.mInterposer := by
  by_cases hI : s.mInterposer = none
  · rw [onFrameCommitted_of_direct E s t hI]
  · by_cases hH : s.mAcquiredBuffer = none
    · rw [onFrameCommitted_of_idle E s t hH]
    · rw [onFrameCommitted_of_held E s t hI hH]

theorem step_mInterposer (E : Env) (op : Op) (s : VirtualDisplaySurface) (t : Trace) :
    (step E op s t).2.1.mInterposer = s.mInterposer := by
  cases op with
  | advanceFrame => exact advanceFrame_mInterposer E s t
  | onFrameCommitted => exact onFrameCommitted_mInterposer E s t
  | compositionComplete => rfl

/-- After an `advanceFrame` that returned `NO_ERROR` on an Interposed surface,
a buffer is held. -/
theorem advanceFrame_ok_holds (E : Env) (hne : E.INVALID_OPERATION ≠ E.NO_ERROR)
    (hacq : SuccessfulAcquireYieldsBuffer E) (s : VirtualDisplaySurface) (t : Trace)
    (hI : s.mInterposer ≠ none) (h : (s.advanceFrame E t).result = E.NO_ERROR) :
    (s.advanceFrame E t).surface.mAcquiredBuffer ≠ none := by
  by_cases hH : s.mAcquiredBuffer = none
  · rw [advanceFrame_of_idle E s t hI hH] at h ⊢
    split_ifs at h ⊢ with h1 h2
    · exact absurd h h2
    · rw [advanceFramePost_surface]
      exact hacq _ _ _ (advanceFramePost_ok_status E s _ _ h)
    · rw [advanceFramePost_surface]
      exact hacq _ _ _ (advanceFramePost_ok_status E s _ _ h)
  · rw [advanceFrame_of_held E s t hI hH] at h
    exact absurd h hne

/-- While a buffer is held, no `advanceFrame` returns `NO_ERROR` before an
`onFrameCommitted` has run. -/
theorem run_held_no_success (E : Env) (hne : E.INVALID_OPERATION ≠ E.NO_ERROR)
    (ops : List Op) :
    ∀ (s : VirtualDisplaySurface) (t : Trace) (l2 l3 : List LogEntry),
      s.mInterposer ≠ none → s.mAcquiredBuffer ≠ none →
      (run E ops s t).1 = l2 ++ ⟨Op.advanceFrame, some E.NO_ERROR⟩ :: l3 →
      ∃ e ∈ l2, e.op = Op.onFrameCommitted := by
  induction ops with
  | nil =>
    intro s t l2 l3 _ _ h
    simp [run] at h
  | cons op ops ih =>
    intro s t l2 l3 hI hH h
    cases op with
    | advanceFrame =>
      simp only [run, step, advanceFrame_of_held E s t hI hH] at h
      cases l2 with
      | nil =>
        simp only [List.nil_append, List.cons.injEq, LogEntry.mk.injEq, Option.some.injEq,
          true_and] at h
        exact absurd h.1 hne
      | cons e l2 =>
        simp only [List.cons_append, List.cons.injEq] at h
        obtain ⟨e', he', hop⟩ := ih s t l2 l3 hI hH h.2
        exact ⟨e', List.mem_cons_of_mem _ he', hop⟩
    | onFrameCommitted =>
      simp only [run, step] at h
      cases l2 with
      | nil =>
        simp at h
      | cons e l2 =>
        simp only [List.cons_append, List.cons.injEq] at h
        exact ⟨e, List.mem_cons_self _ _, by rw [← h.1]⟩
    | compositionComplete =>
      simp only [run, step, VirtualDisplaySurface.compositionComplete] at h
      cases l2 with
      | nil =>
        simp at h
      | cons e l2 =>
        simp only [List.cons_append, List.cons.injEq] at h
        obtain ⟨e', he', hop⟩ := ih s t l2 l3 hI hH h.2
        exact ⟨e', List.mem_cons_of_mem _ he', hop⟩

theorem newEvents_append (t l : Trace) : newEvents t (t ++ l) = l := by
  simp [newEvents]

theorem surface_with_none (s : VirtualDisplaySurface) (hN : s.mAcquiredBuffer = none) :
    ({ s with mAcquiredBuffer := none } : VirtualDisplaySurface) = s := by
  cases s
  simp only at hN
  subst hN
  rfl

/-- Every acquisition either fails or succeeds. -/
theorem acquisition_total (E : Env) (t : Trace) :
    (∃ r u, AcquisitionFails E t r u) ∨ (∃ a u, AcquisitionSucceeds E t a u) := by
  unfold AcquisitionFails AcquisitionSucceeds
  by_cases h1 : (firstAcquire E t).status = E.NO_BUFFER_AVAILABLE
  · by_cases h2 : pullAnswer E t = E.NO_ERROR
    · by_cases h3 : (retryAcquire E t).status = E.NO_ERROR
      · exact Or.inr ⟨_, _, Or.inr ⟨h1, h2, h3, rfl, rfl⟩⟩
      · exact Or.inl ⟨_, _, Or.inr (Or.inr ⟨h1, h2, h3, rfl, rfl⟩)⟩
    · exact Or.inl ⟨_, _, Or.inr (Or.inl ⟨h1, h2, rfl, rfl⟩)⟩
  · by_cases h3 : (firstAcquire E t).status = E.NO_ERROR
    · exact Or.inr ⟨_, _, Or.inl ⟨h1, h3, rfl, rfl⟩⟩
    · exact Or.inl ⟨_, _, Or.inl ⟨h1, h3, rfl, rfl⟩⟩

/-- A failed acquisition decides the status and the trace of `advanceFrame`, and
the held slot is what the last `acquireBuffer` call left there. -/
theorem advanceFrame_of_acquisition_fails (E : Env) (s : VirtualDisplaySurface) (t : Trace)
    (hI : s.mInterposer ≠ none) (hN : s.mAcquiredBuffer = none) (r : status_t) (u : Trace)
    (h : AcquisitionFails E t r u) :
    r ≠ E.NO_ERROR ∧ (s.advanceFrame E t).result = r ∧ (s.advanceFrame E t).trace = u ∧
    ((s.advanceFrame E t).surface = { s with mAcquiredBuffer := (firstAcquire E t).buf } ∨
     (s.advanceFrame E t).surface = { s with mAcquiredBuffer := (retryAcquire E t).buf } ∧
        (retryAcquire E t).status ≠ E.NO_ERROR) ∧
    ((firstAcquire E t).status ≠ E.NO_ERROR ∨
      (firstAcquire E t).status = E.NO_BUFFER_AVAILABLE) := by
  rw [advanceFrame_of_idle E s t hI hN]
  rcases h with ⟨h1, h2, rfl, rfl⟩ | ⟨h1, h2, rfl, rfl⟩ | ⟨h1, h2, h3, rfl, rfl⟩
  · simp [h1, h2, VirtualDisplaySurface.advanceFramePost]
  · simp [h1, h2]
  · simp [h1, h2, h3, VirtualDisplaySurface.advanceFramePost]

theorem advanceFramePost_of_ok (E : Env) (s : VirtualDisplaySurface) (a : AcquireResult)
    (u : Trace) (h : a.status = E.NO_ERROR) :
    VirtualDisplaySurface.advanceFramePost E s a u =
      if E.fbPost u s.mDisplayId a.fence a.buf = E.NO_ERROR then
        ⟨E.setOutputBuffer (u ++ [Event.fbPost s.mDisplayId a.fence a.buf
              (E.fbPost u s.mDisplayId a.fence a.buf)]) s.mDisplayId a.fence a.buf,
          { s with mAcquiredBuffer := a.buf },
          u ++ [Event.fbPost s.mDisplayId a.fence a.buf
              (E.fbPost u s.mDisplayId a.fence a.buf)] ++
            [Event.setOutputBuffer s.mDisplayId a.fence a.buf
              (E.setOutputBuffer (u ++ [Event.fbPost s.mDisplayId a.fence a.buf
                (E.fbPost u s.mDisplayId a.fence a.buf)]) s.mDisplayId a.fence a.buf)]⟩
      else
        ⟨E.fbPost u s.mDisplayId a.fence a.buf, { s with mAcquiredBuffer := a.buf },
          u ++ [Event.fbPost s.mDisplayId a.fence a.buf
            (E.fbPost u s.mDisplayId a.fence a.buf)]⟩ := by
  unfold VirtualDisplaySurface.advanceFramePost
  rw [if_neg (not_not.mpr h)]

/-- After a successful acquisition `advanceFrame` goes on to `fbPost`. -/
theorem advanceFrame_of_acquisition_succeeds (E : Env) (s : VirtualDisplaySurface) (t : Trace)
    (hI : s.mInterposer ≠ none) (hN : s.mAcquiredBuffer = none) (a : AcquireResult) (u : Trace)
    (h : AcquisitionSucceeds E t a u) :
    a.status = E.NO_ERROR ∧ (∃ l, u = t ++ l ∧ ∀ e ∈ l, e.isFbPost = false ∧
      e.isSetOutputBuffer = false) ∧
    s.advanceFrame E t = VirtualDisplaySurface.advanceFramePost E s a u := by
  rw [advanceFrame_of_idle E s t hI hN]
  rcases h with ⟨h1, h2, rfl, rfl⟩ | ⟨h1, h2, h3, rfl, rfl⟩
  · refine ⟨h2, ⟨_, rfl, ?_⟩, ?_⟩
    · intro e he
      simp only [List.mem_singleton] at he
      subst he
      exact ⟨rfl, rfl⟩
    · rw [if_neg h1]
  · refine ⟨h3, ⟨[Event.acquireBuffer (firstAcquire E t).status (firstAcquire E t).buf
        (firstAcquire E t).fence, Event.pullEmptyBuffer (pullAnswer E t),
        Event.acquireBuffer (retryAcquire E t).status (retryAcquire E t).buf
          (retryAcquire E t).fence], by simp [afterRetry, afterPull, afterFirstAcquire], ?_⟩, ?_⟩
    · intro e he
      simp only [List.mem_cons, List.mem_singleton, List.not_mem_nil, or_false] at he
      rcases he with rfl | rfl | rfl <;> exact ⟨rfl, rfl⟩
    · rw [if_pos h1, if_neg (not_not.mpr h2)]

/-- A failed acquisition has made no `fbPost` and no `setOutputBuffer` call. -/
theorem acquisitionFails_trace (E : Env) (t : Trace) (r : status_t) (u : Trace)
    (h : AcquisitionFails E t r u) :
    ∃ l, u = t ++ l ∧ ∀ e ∈ l, e.isFbPost = false ∧ e.isSetOutputBuffer = false := by
  rcases h with ⟨_, _, _, rfl⟩ | ⟨_, _, _, rfl⟩ | ⟨_, _, _, _, rfl⟩
  · refine ⟨[Event.acquireBuffer (firstAcquire E t).status (firstAcquire E t).buf
      (firstAcquire E t).fence], rfl, ?_⟩
    intro e he
    simp only [List.mem_singleton] at he
    subst he
    exact ⟨rfl, rfl⟩
  · refine ⟨[Event.acquireBuffer (firstAcquire E t).status (firstAcquire E t).buf
      (firstAcquire E t).fence, Event.pullEmptyBuffer (pullAnswer E t)],
      by simp [afterPull, afterFirstAcquire], ?_⟩
    intro e he
    simp only [List.mem_cons, List.mem_singleton, List.not_mem_nil, or_false] at he
    rcases he with rfl | rfl <;> exact ⟨rfl, rfl⟩
  · refine ⟨[Event.acquireBuffer (firstAcquire E t).status (firstAcquire E t).buf
        (firstAcquire E t).fence, Event.pullEmptyBuffer (pullAnswer E t),
        Event.acquireBuffer (retryAcquire E t).status (retryAcquire E t).buf
          (retryAcquire E t).fence], by simp [afterRetry, afterPull, afterFirstAcquire], ?_⟩
    intro e he
    simp only [List.mem_cons, List.mem_singleton, List.not_mem_nil, or_false] at he
    rcases he with rfl | rfl | rfl <;> exact ⟨rfl, rfl⟩

/-- When a failing `acquireBuffer` yields no buffer, a failed acquisition leaves
the surface as it was. -/
theorem advanceFrame_fails_surface (E : Env) (hk : E.NO_BUFFER_AVAILABLE ≠ E.NO_ERROR)
    (hfail : FailedAcquireYieldsNone E) (s : VirtualDisplaySurface) (t : Trace)
    (hI : s.mInterposer ≠ none) (hN : s.mAcquiredBuffer = none) (r : status_t) (u : Trace)
    (h : AcquisitionFails E t r u) :
    (s.advanceFrame E t).surface = s := by
  obtain ⟨_, _, _, hs, h1⟩ := advanceFrame_of_acquisition_fails E s t hI hN r u h
  rcases hs with hs | ⟨hs, h3⟩
  · have hf : (firstAcquire E t).status ≠ E.NO_ERROR := by
      rcases h1 with h1 | h1
      · exact h1
      · rw [h1]; exact hk
    rw [hs, show (firstAcquire E t).buf = none from hfail _ _ _ hf]
    exact surface_with_none s hN
  · rw [hs, show (retryAcquire E t).buf = none from hfail _ _ _ h3]
    exact surface_with_none s hN

theorem countAcquire_append (t l : Trace) :
    countAcquire (t ++ l) = countAcquire t + countAcquire l := by
  induction t with
  | nil => simp [countAcquire]
  | cons e t ih =>
    cases e <;> simp [countAcquire, ih]
    omega

theorem countPull_append (t l : Trace) :
    countPull (t ++ l) = countPull t + countPull l := by
  induction t with
  | nil => simp [countPull]
  | cons e t ih =>
    cases e <;> simp [countPull, ih]
    omega

/-- The part of `advanceFrame` after the acquisition calls neither
`acquireBuffer` nor `pullEmptyBuffer`. -/
theorem advanceFramePost_counts (E : Env) (s : VirtualDisplaySurface) (a : AcquireResult)
    (u : Trace) :
    countAcquire (VirtualDisplaySurface.advanceFramePost E s a u).trace = countAcquire u ∧
    countPull (VirtualDisplaySurface.advanceFramePost E s a u).trace = countPull u := by
  unfold VirtualDisplaySurface.advanceFramePost
  dsimp only
  split_ifs <;> simp [countAcquire_append, countPull_append, countAcquire, countPull]

/-- The calls of a successful acquisition, none of which counts as failed
whatever calls follow. -/
theorem acquisitionSucceeds_notFailed (E : Env) (t : Trace) (a : AcquireResult) (u : Trace)
    (h : AcquisitionSucceeds E t a u) :
    ∃ l, u = t ++ l ∧ ∀ (tail : Trace), ∀ e ∈ l, NotFailed E (l ++ tail) e := by
  rcases h with ⟨_, h2, rfl, rfl⟩ | ⟨h1, h2, h3, rfl, rfl⟩
  · refine ⟨[Event.acquireBuffer (firstAcquire E t).status (firstAcquire E t).buf
      (firstAcquire E t).fence], rfl, ?_⟩
    intro tail e he
    simp only [List.mem_singleton] at he
    subst he
    exact Or.inl (by simp [Event.status, h2])
  · refine ⟨[Event.acquireBuffer (firstAcquire E t).status (firstAcquire E t).buf
        (firstAcquire E t).fence, Event.pullEmptyBuffer (pullAnswer E t),
        Event.acquireBuffer (retryAcquire E t).status (retryAcquire E t).buf
          (retryAcquire E t).fence], by simp [afterRetry, afterPull, afterFirstAcquire], ?_⟩
    intro tail e he
    simp only [List.mem_cons, List.mem_singleton, List.not_mem_nil, or_false] at he
    rcases he with rfl | rfl | rfl
    · exact Or.inr ⟨rfl, _, _, by rw [h1]⟩
    · exact Or.inl (by simp [Event.status, h2])
    · exact Or.inl (by simp [Event.status, h3])

theorem construct_mAcquiredBuffer (hwc : HWComposer) (d : Int) (sink : sp SinkProducer)
    (name : String8) :
    (VirtualDisplaySurface.construct hwc d sink name).mAcquiredBuffer = none := by
  unfold VirtualDisplaySurface.construct
  split_ifs <;> rfl

/-! ## Properties of the frame operations -/

/-- C1. Single-acquisition invariant.  On an Interposed surface (the constructor
makes one exactly for a display id `>= 0`), whatever the collaborators answer,
provided a successful `acquireBuffer` yields a non-null buffer: in the call log
of any finite sequence of `advanceFrame`, `onFrameCommitted` and
`compositionComplete` calls, between two `advanceFrame` calls that both returned
`NO_ERROR` there is an `onFrameCommitted` call.  The status constant
`INVALID_OPERATION` is taken to differ from `NO_ERROR`. -/
theorem C1_single_acquisition (E : Env) (hne : E.INVALID_OPERATION ≠ E.NO_ERROR)
    (hacq : SuccessfulAcquireYieldsBuffer E) (ops : List Op) :
    ∀ (s : VirtualDisplaySurface) (t : Trace) (l1 l2 l3 : List LogEntry),
      s.mInterposer ≠ none →
      (run E ops s t).1 = l1 ++ ⟨Op.advanceFrame, some E.NO_ERROR⟩ :: (l2 ++
        ⟨Op.advanceFrame, some E.NO_ERROR⟩ :: l3) →
      ∃ e ∈ l2, e.op = Op.onFrameCommitted := by
  induction ops with
  | nil =>
    intro s t l1 l2 l3 _ h
    simp [run] at h
  | cons op ops ih =>
    intro s t l1 l2 l3 hI h
    have hI' : (step E op s t).2.1.mInterposer ≠ none := by
      rw [step_mInterposer]; exact hI
    cases l1 with
    | nil =>
      simp only [run, List.nil_append, List.cons.injEq] at h
      obtain ⟨h1, h2⟩ := h
      cases op with
      | advanceFrame =>
        simp only [step, LogEntry.mk.injEq, Option.some.injEq, true_and] at h1
        have hheld := advanceFrame_ok_holds E hne hacq s t hI h1
        exact run_held_no_success E hne ops _ _ l2 l3 hI' hheld h2
      | onFrameCommitted => simp [step] at h1
      | compositionComplete => simp [step] at h1
    | cons e l1 =>
      simp only [run, List.cons_append, List.cons.injEq] at h
      exact ih _ _ l1 l2 l3 hI' h.2

/-- C1 at a concrete run: display 0, a buffer always ready, and the calls
`advanceFrame`, `advanceFrame`, `onFrameCommitted`, `advanceFrame`. -/
theorem C1_single_acquisition_witness :
    (run (scriptedEnv (fun _ => (0, some ⟨1⟩)) 0 0 0 0)
        [Op.advanceFrame, Op.advanceFrame, Op.onFrameCommitted, Op.advanceFrame]
        surface0 []).1 =
      [⟨Op.advanceFrame, some 0⟩, ⟨Op.advanceFrame, some (-38)⟩, ⟨Op.onFrameCommitted, none⟩,
        ⟨Op.advanceFrame, some 0⟩] ∧
    ∃ e ∈ [(⟨Op.advanceFrame, some (-38)⟩ : LogEntry), ⟨Op.onFrameCommitted, none⟩],
      e.op = Op.onFrameCommitted :=
  ⟨by decide,
   C1_single_acquisition (scriptedEnv (fun _ => (0, some ⟨1⟩)) 0 0 0 0) (by decide)
    (by intro t b f _; simp [scriptedEnv])
    [Op.advanceFrame, Op.advanceFrame, Op.onFrameCommitted, Op.advanceFrame]
    surface0 [] [] [⟨Op.advanceFrame, some (-38)⟩, ⟨Op.onFrameCommitted, none⟩] []
    (by decide) (by decide)⟩

/-- C2. On an Interposed surface that already holds a buffer, `advanceFrame`
returns `INVALID_OPERATION`, makes no collaborator call (the trace is
unchanged) and leaves every field of the surface, the held buffer included,
unchanged. -/
theorem C2_advanceFrame_while_held (E : Env) (s : VirtualDisplaySurface) (t : Trace)
    (hI : s.mInterposer ≠ none) (hH : s.mAcquiredBuffer ≠ none) :
    (s.advanceFrame E t).result = E.INVALID_OPERATION ∧
    (s.advanceFrame E t).trace = t ∧
    (s.advanceFrame E t).surface = s := by
  rw [advanceFrame_of_held E s t hI hH]
  exact ⟨rfl, rfl, rfl⟩

/-- C2 at a concrete state: display 0 holding buffer 9. -/
theorem C2_advanceFrame_while_held_witness :
    (({ surface0 with mAcquiredBuffer := some ⟨9⟩ } : VirtualDisplaySurface).advanceFrame
        (scriptedEnv (fun _ => (0, some ⟨1⟩)) 0 0 0 0) []).result = -38 ∧
    (({ surface0 with mAcquiredBuffer := some ⟨9⟩ } : VirtualDisplaySurface).advanceFrame
        (scriptedEnv (fun _ => (0, some ⟨1⟩)) 0 0 0 0) []).trace = [] ∧
    (({ surface0 with mAcquiredBuffer := some ⟨9⟩ } : VirtualDisplaySurface).advanceFrame
        (scriptedEnv (fun _ => (0, some ⟨1⟩)) 0 0 0 0) []).surface =
      { surface0 with mAcquiredBuffer := some ⟨9⟩ } :=
  C2_advanceFrame_while_held (scriptedEnv (fun _ => (0, some ⟨1⟩)) 0 0 0 0)
    { surface0 with mAcquiredBuffer := some ⟨9⟩ } [] (by decide) (by decide)

/-- C3, refuted as stated: on display 0 with nothing held, `acquireBuffer`
succeeds with buffer 1 and `fbPost` returns -1; `advanceFrame` returns the
failure -1, yet the held slot has changed from empty to buffer 1. -/
theorem C3_counterexample :
    surface0.mInterposer ≠ none ∧ surface0.mAcquiredBuffer = none ∧
    (surface0.advanceFrame (scriptedEnv (fun _ => (0, some ⟨1⟩)) 0 (-1) 0 0) []).result = -1 ∧
    (surface0.advanceFrame (scriptedEnv (fun _ => (0, some ⟨1⟩)) 0 (-1) 0 0) []).result ≠
      (scriptedEnv (fun _ => (0, some ⟨1⟩)) 0 (-1) 0 0).NO_ERROR ∧
    (surface0.advanceFrame (scriptedEnv (fun _ => (0, some ⟨1⟩)) 0 (-1) 0 0)
      []).surface.mAcquiredBuffer = some ⟨1⟩ ∧
    (surface0.advanceFrame (scriptedEnv (fun _ => (0, some ⟨1⟩)) 0 (-1) 0 0)
      []).surface.mAcquiredBuffer ≠ surface0.mAcquiredBuffer := by
  decide

/-- C3, amended.  On an Interposed surface with no buffer held, when a failing
`acquireBuffer` yields no buffer: if `advanceFrame` returns a failure, then
either the acquisition failed and the surface, held slot included, is as before
the call (Idle to Idle), or the acquisition succeeded, the failure returned is
that of `fbPost` or of `setOutputBuffer`, and the held slot contains the
acquired buffer.  The status constant `NO_BUFFER_AVAILABLE` is taken to differ
from `NO_ERROR`. -/
theorem C3_failure_held_slot (E : Env) (hk : E.NO_BUFFER_AVAILABLE ≠ E.NO_ERROR)
    (hfail : FailedAcquireYieldsNone E) (s : VirtualDisplaySurface) (t : Trace)
    (hI : s.mInterposer ≠ none) (hN : s.mAcquiredBuffer = none)
    (hr : (s.advanceFrame E t).result ≠ E.NO_ERROR) :
    ((∃ u, AcquisitionFails E t (s.advanceFrame E t).result u) ∧
      (s.advanceFrame E t).surface = s) ∨
    (∃ a u, AcquisitionSucceeds E t a u ∧
      (s.advanceFrame E t).surface.mAcquiredBuffer = a.buf ∧
      (E.fbPost u s.mDisplayId a.fence a.buf ≠ E.NO_ERROR ∧
          (s.advanceFrame E t).result = E.fbPost u s.mDisplayId a.fence a.buf ∨
        E.fbPost u s.mDisplayId a.fence a.buf = E.NO_ERROR ∧
          E.setOutputBuffer (u ++ [Event.fbPost s.mDisplayId a.fence a.buf E.NO_ERROR])
            s.mDisplayId a.fence a.buf ≠ E.NO_ERROR ∧
          (s.advanceFrame E t).result =
            E.setOutputBuffer (u ++ [Event.fbPost s.mDisplayId a.fence a.buf E.NO_ERROR])
              s.mDisplayId a.fence a.buf)) := by
  rcases acquisition_total E t with ⟨r, u, h⟩ | ⟨a, u, h⟩
  · left
    have hres := (advanceFrame_of_acquisition_fails E s t hI hN r u h).2.1
    exact ⟨⟨u, by rw [hres]; exact h⟩, advanceFrame_fails_surface E hk hfail s t hI hN r u h⟩
  · right
    obtain ⟨ha, _, heq⟩ := advanceFrame_of_acquisition_succeeds E s t hI hN a u h
    refine ⟨a, u, h, ?_, ?_⟩
    · rw [heq, advanceFramePost_surface]
    · rw [heq, advanceFramePost_of_ok E s a u ha] at hr ⊢
      by_cases h4 : E.fbPost u s.mDisplayId a.fence a.buf = E.NO_ERROR
      · right
        rw [if_pos h4] at hr ⊢
        rw [h4] at hr
        exact ⟨h4, hr, by rw [h4]⟩
      · left
        rw [if_neg h4]
        exact ⟨h4, rfl⟩

/-- C3 amended, at two concrete runs on display 0: a failed `acquireBuffer`
(status -5, no buffer), and a failed `fbPost` after buffer 1 was acquired. -/
theorem C3_failure_held_slot_witness :
    (surface0.advanceFrame (scriptedEnv (fun _ => (-5, none)) 0 0 0 0) []).surface = surface0 ∧
    (surface0.advanceFrame (scriptedEnv (fun _ => (0, some ⟨1⟩)) 0 (-1) 0 0)
      []).surface.mAcquiredBuffer = some ⟨1⟩ := by
  have h1 := C3_failure_held_slot (scriptedEnv (fun _ => (-5, none)) 0 0 0 0) (by decide)
    (by intro t b f _; rfl) surface0 [] (by decide) (by decide) (by decide)
  have h2 := C3_failure_held_slot (scriptedEnv (fun _ => (0, some ⟨1⟩)) 0 (-1) 0 0) (by decide)
    (by intro t b f h; exact absurd rfl h) surface0 [] (by decide) (by decide) (by decide)
  refine ⟨?_, ?_⟩
  · rcases h1 with ⟨_, hs⟩ | ⟨a, u, hacq, _⟩
    · exact hs
    · exact absurd hacq (by
        intro h
        rcases h with ⟨_, h, _⟩ | ⟨h, _⟩
        · exact absurd h (by decide)
        · exact absurd h (by decide))
  · rcases h2 with ⟨⟨u, hf⟩, _⟩ | ⟨a, u, hacq, hb, _⟩
    · exact absurd hf (by
        intro h
        rcases h with ⟨_, h, _⟩ | ⟨h, _⟩ | ⟨h, _⟩
        · exact absurd rfl h
        · exact absurd h (by decide)
        · exact absurd h (by decide))
    · rcases hacq with ⟨_, _, rfl, _⟩ | ⟨h, _⟩
      · exact hb
      · exact absurd h (by decide)

/-- C4. On an Interposed surface with no buffer held, when the acquisition
(first or retried) succeeds with buffer `a.buf` and `fbPost` returns an error
`e` other than `NO_ERROR`: `advanceFrame` returns exactly `e`, the held slot
ends up containing `a.buf`, the `fbPost` call is the last collaborator call,
and no `setOutputBuffer` call is made. -/
theorem C4_fbPost_failure (E : Env) (s : VirtualDisplaySurface) (t : Trace)
    (hI : s.mInterposer ≠ none) (hN : s.mAcquiredBuffer = none)
    (a : AcquireResult) (u : Trace) (hacq : AcquisitionSucceeds E t a u)
    (e : status_t) (hpost : E.fbPost u s.mDisplayId a.fence a.buf = e)
    (he : e ≠ E.NO_ERROR) :
    (s.advanceFrame E t).result = e ∧
    (s.advanceFrame E t).surface.mAcquiredBuffer = a.buf ∧
    (s.advanceFrame E t).trace = u ++ [Event.fbPost s.mDisplayId a.fence a.buf e] ∧
    ∀ ev ∈ newEvents t (s.advanceFrame E t).trace, ev.isSetOutputBuffer = false := by
  obtain ⟨ha, ⟨l, hu, hl⟩, heq⟩ := advanceFrame_of_acquisition_succeeds E s t hI hN a u hacq
  have hne : ¬ E.fbPost u s.mDisplayId a.fence a.buf = E.NO_ERROR := by rw [hpost]; exact he
  rw [heq, advanceFramePost_of_ok E s a u ha, if_neg hne, hpost]
  refine ⟨rfl, rfl, rfl, ?_⟩
  intro ev hev
  simp only [hu, List.append_assoc, newEvents_append, List.mem_append,
    List.mem_singleton] at hev
  rcases hev with hev | rfl
  · exact (hl ev hev).2
  · rfl

/-- C4 at a concrete run: display 0, buffer 1 acquired at once, `fbPost`
returns -1. -/
theorem C4_fbPost_failure_witness :
    (surface0.advanceFrame (scriptedEnv (fun _ => (0, some ⟨1⟩)) 0 (-1) 0 0) []).result = -1 ∧
    (surface0.advanceFrame (scriptedEnv (fun _ => (0, some ⟨1⟩)) 0 (-1) 0 0)
      []).surface.mAcquiredBuffer = some ⟨1⟩ ∧
    (surface0.advanceFrame (scriptedEnv (fun _ => (0, some ⟨1⟩)) 0 (-1) 0 0) []).trace =
      [Event.acquireBuffer 0 (some ⟨1⟩) (some ⟨7⟩)] ++
        [Event.fbPost 0 (some ⟨7⟩) (some ⟨1⟩) (-1)] ∧
    ∀ ev ∈ newEvents []
        (surface0.advanceFrame (scriptedEnv (fun _ => (0, some ⟨1⟩)) 0 (-1) 0 0) []).trace,
      ev.isSetOutputBuffer = false :=
  C4_fbPost_failure (scriptedEnv (fun _ => (0, some ⟨1⟩)) 0 (-1) 0 0) surface0 []
    (by decide) (by decide) ⟨0, some ⟨1⟩, some ⟨7⟩⟩ [Event.acquireBuffer 0 (some ⟨1⟩) (some ⟨7⟩)]
    (Or.inl ⟨by decide, rfl, rfl, rfl⟩) (-1) rfl (by decide)

/-- C5. On an Interposed surface with no buffer held, when a failing
`acquireBuffer` yields no buffer: if the acquisition fails (the first
`acquireBuffer` returns an error other than `NO_BUFFER_AVAILABLE`, or
`pullEmptyBuffer` fails, or the retried `acquireBuffer` fails), then
`advanceFrame` returns that failure, the held slot is still empty after the
call, and neither `fbPost` nor `setOutputBuffer` has been called.  The status
constant `NO_BUFFER_AVAILABLE` is taken to differ from `NO_ERROR`. -/
theorem C5_acquisition_failure (E : Env) (hk : E.NO_BUFFER_AVAILABLE ≠ E.NO_ERROR)
    (hfail : FailedAcquireYieldsNone E) (s : VirtualDisplaySurface) (t : Trace)
    (hI : s.mInterposer ≠ none) (hN : s.mAcquiredBuffer = none)
    (r : status_t) (u : Trace) (hacq : AcquisitionFails E t r u) :
    (s.advanceFrame E t).result = r ∧
    (s.advanceFrame E t).surface.mAcquiredBuffer = none ∧
    ∀ ev ∈ newEvents t (s.advanceFrame E t).trace,
      ev.isFbPost = false ∧ ev.isSetOutputBuffer = false := by
  obtain ⟨_, hres, htr, _, _⟩ := advanceFrame_of_acquisition_fails E s t hI hN r u hacq
  obtain ⟨l, hu, hl⟩ := acquisitionFails_trace E t r u hacq
  refine ⟨hres, ?_, ?_⟩
  · rw [advanceFrame_fails_surface E hk hfail s t hI hN r u hacq]
    exact hN
  · intro ev hev
    rw [htr, hu, newEvents_append] at hev
    exact hl ev hev

/-- C5 at a concrete run: display 0, the queue reports `NO_BUFFER_AVAILABLE` (2)
and `pullEmptyBuffer` fails with -12. -/
theorem C5_acquisition_failure_witness :
    (surface0.advanceFrame (scriptedEnv (fun _ => (2, none)) (-12) 0 0 0) []).result = -12 ∧
    (surface0.advanceFrame (scriptedEnv (fun _ => (2, none)) (-12) 0 0 0)
      []).surface.mAcquiredBuffer = none ∧
    ∀ ev ∈ newEvents []
        (surface0.advanceFrame (scriptedEnv (fun _ => (2, none)) (-12) 0 0 0) []).trace,
      ev.isFbPost = false ∧ ev.isSetOutputBuffer = false :=
  C5_acquisition_failure (scriptedEnv (fun _ => (2, none)) (-12) 0 0 0) (by decide)
    (by intro t b f _; rfl) surface0 [] (by decide) (by decide) (-12)
    [Event.acquireBuffer 2 none (some ⟨7⟩), Event.pullEmptyBuffer (-12)]
    (Or.inr (Or.inl ⟨rfl, by decide, rfl, rfl⟩))

/-- C6. Retry-once policy.  On an Interposed surface with no buffer held: when
the first `acquireBuffer` returns `NO_BUFFER_AVAILABLE`, `advanceFrame` calls
`pullEmptyBuffer` exactly once; if that pull returns an error, `advanceFrame`
returns that error and `acquireBuffer` is called exactly once; if the pull
succeeds, `acquireBuffer` is called exactly twice, whatever the retry reports.
When the first `acquireBuffer` returns anything else, `pullEmptyBuffer` is not
called and `acquireBuffer` is called exactly once. -/
theorem C6_retry_once (E : Env) (s : VirtualDisplaySurface) (t : Trace)
    (hI : s.mInterposer ≠ none) (hN : s.mAcquiredBuffer = none) :
    ((firstAcquire E t).status = E.NO_BUFFER_AVAILABLE →
      countPull (s.advanceFrame E t).trace = countPull t + 1 ∧
      (pullAnswer E t ≠ E.NO_ERROR →
        (s.advanceFrame E t).result = pullAnswer E t ∧
        countAcquire (s.advanceFrame E t).trace = countAcquire t + 1) ∧
      (pullAnswer E t = E.NO_ERROR →
        countAcquire (s.advanceFrame E t).trace = countAcquire t + 2)) ∧
    ((firstAcquire E t).status ≠ E.NO_BUFFER_AVAILABLE →
      countPull (s.advanceFrame E t).trace = countPull t ∧
      countAcquire (s.advanceFrame E t).trace = countAcquire t + 1) := by
  rw [advanceFrame_of_idle E s t hI hN]
  refine ⟨fun h1 => ?_, fun h1 => ?_⟩
  · rw [if_pos h1]
    by_cases h2 : pullAnswer E t = E.NO_ERROR
    · rw [if_neg (not_not.mpr h2)]
      refine ⟨?_, fun h => absurd h2 h, fun _ => ?_⟩
      · rw [(advanceFramePost_counts E s _ _).2]
        simp [afterRetry, afterPull, afterFirstAcquire, countPull_append, countPull]
      · rw [(advanceFramePost_counts E s _ _).1]
        simp [afterRetry, afterPull, afterFirstAcquire, countAcquire_append, countAcquire]
    · rw [if_pos h2]
      refine ⟨?_, fun _ => ⟨rfl, ?_⟩, fun h => absurd h h2⟩
      · simp [afterPull, afterFirstAcquire, countPull_append, countPull]
      · simp [afterPull, afterFirstAcquire, countAcquire_append, countAcquire]
  · rw [if_neg h1]
    refine ⟨?_, ?_⟩
    · rw [(advanceFramePost_counts E s _ _).2]
      simp [afterFirstAcquire, countPull_append, countPull]
    · rw [(advanceFramePost_counts E s _ _).1]
      simp [afterFirstAcquire, countAcquire_append, countAcquire]

/-- C6 at a concrete run: display 0, the queue is empty at first (status 2) and
has buffer 1 after the pull; one pull and two `acquireBuffer` calls are made. -/
theorem C6_retry_once_witness :
    countPull (surface0.advanceFrame
      (scriptedEnv (fun t => if t.length = 0 then (2, none) else (0, some ⟨1⟩)) 0 0 0 0)
      []).trace = 1 ∧
    countAcquire (surface0.advanceFrame
      (scriptedEnv (fun t => if t.length = 0 then (2, none) else (0, some ⟨1⟩)) 0 0 0 0)
      []).trace = 2 :=
  ⟨((C6_retry_once
      (scriptedEnv (fun t => if t.length = 0 then (2, none) else (0, some ⟨1⟩)) 0 0 0 0)
      surface0 [] (by decide) (by decide)).1 rfl).1,
   ((C6_retry_once
      (scriptedEnv (fun t => if t.length = 0 then (2, none) else (0, some ⟨1⟩)) 0 0 0 0)
      surface0 [] (by decide) (by decide)).1 rfl).2.2 rfl⟩

/-- C7. Error propagation.  On an Interposed surface with no buffer held,
`advanceFrame` returns `NO_ERROR` if and only if the acquisition (the first
`acquireBuffer`, or `pullEmptyBuffer` and the retried `acquireBuffer` when the
first reported `NO_BUFFER_AVAILABLE`), `fbPost` and `setOutputBuffer` all return
`NO_ERROR`.  In every case the value returned is the status of the last
collaborator call made, and no call before that one failed: so a failure
returned is the status of the first call that failed, and no call follows it. -/
theorem C7_error_propagation (E : Env) (s : VirtualDisplaySurface) (t : Trace)
    (hI : s.mInterposer ≠ none) (hN : s.mAcquiredBuffer = none) :
    ((s.advanceFrame E t).result = E.NO_ERROR ↔
      ∃ a u, AcquisitionSucceeds E t a u ∧
        E.fbPost u s.mDisplayId a.fence a.buf = E.NO_ERROR ∧
        E.setOutputBuffer (u ++ [Event.fbPost s.mDisplayId a.fence a.buf E.NO_ERROR])
          s.mDisplayId a.fence a.buf = E.NO_ERROR) ∧
    (∃ pre ev, (s.advanceFrame E t).trace = t ++ pre ++ [ev] ∧
      ev.status = some (s.advanceFrame E t).result ∧
      ∀ e ∈ pre, NotFailed E pre e) := by
  constructor
  · constructor
    · intro hr
      rcases acquisition_total E t with ⟨r, u, h⟩ | ⟨a, u, h⟩
      · obtain ⟨hne, hres, _⟩ := advanceFrame_of_acquisition_fails E s t hI hN r u h
        rw [hres] at hr
        exact absurd hr hne
      · obtain ⟨ha, _, heq⟩ := advanceFrame_of_acquisition_succeeds E s t hI hN a u h
        rw [heq, advanceFramePost_of_ok E s a u ha] at hr
        by_cases h4 : E.fbPost u s.mDisplayId a.fence a.buf = E.NO_ERROR
        · rw [if_pos h4, h4] at hr
          exact ⟨a, u, h, h4, hr⟩
        · rw [if_neg h4] at hr
          exact absurd hr h4
    · rintro ⟨a, u, h, h4, h5⟩
      obtain ⟨ha, _, heq⟩ := advanceFrame_of_acquisition_succeeds E s t hI hN a u h
      rw [heq, advanceFramePost_of_ok E s a u ha, if_pos h4, h4]
      exact h5
  · rcases acquisition_total E t with ⟨r, u, h⟩ | ⟨a, u, h⟩
    · obtain ⟨_, hres, htr, _, _⟩ := advanceFrame_of_acquisition_fails E s t hI hN r u h
      rw [hres, htr]
      rcases h with ⟨_, _, rfl, rfl⟩ | ⟨h1, _, rfl, rfl⟩ | ⟨h1, h2, _, rfl, rfl⟩
      · exact ⟨[], Event.acquireBuffer (firstAcquire E t).status (firstAcquire E t).buf
          (firstAcquire E t).fence, by simp [afterFirstAcquire], rfl, by simp⟩
      · refine ⟨[Event.acquireBuffer (firstAcquire E t).status (firstAcquire E t).buf
          (firstAcquire E t).fence], Event.pullEmptyBuffer (pullAnswer E t),
          by simp [afterPull, afterFirstAcquire], rfl, ?_⟩
        intro e he
        simp only [List.mem_singleton] at he
        subst he
        exact Or.inr ⟨rfl, _, _, by rw [h1]⟩
      · refine ⟨[Event.acquireBuffer (firstAcquire E t).status (firstAcquire E t).buf
          (firstAcquire E t).fence, Event.pullEmptyBuffer (pullAnswer E t)],
          Event.acquireBuffer (retryAcquire E t).status (retryAcquire E t).buf
            (retryAcquire E t).fence,
          by simp [afterRetry, afterPull, afterFirstAcquire], rfl, ?_⟩
        intro e he
        simp only [List.mem_cons, List.mem_singleton, List.not_mem_nil, or_false] at he
        rcases he with rfl | rfl
        · exact Or.inr ⟨rfl, _, _, by rw [h1]⟩
        · exact Or.inl (by simp [Event.status, h2])
    · obtain ⟨ha, _, heq⟩ := advanceFrame_of_acquisition_succeeds E s t hI hN a u h
      obtain ⟨l, hu, hl⟩ := acquisitionSucceeds_notFailed E t a u h
      rw [heq, advanceFramePost_of_ok E s a u ha]
      by_cases h4 : E.fbPost u s.mDisplayId a.fence a.buf = E.NO_ERROR
      · rw [if_pos h4]
        refine ⟨l ++ [Event.fbPost s.mDisplayId a.fence a.buf
          (E.fbPost u s.mDisplayId a.fence a.buf)],
          Event.setOutputBuffer s.mDisplayId a.fence a.buf
            (E.setOutputBuffer (u ++ [Event.fbPost s.mDisplayId a.fence a.buf
              (E.fbPost u s.mDisplayId a.fence a.buf)]) s.mDisplayId a.fence a.buf),
          by simp [hu], rfl, ?_⟩
        intro e he
        simp only [List.mem_append, List.mem_singleton] at he
        rcases he with he | rfl
        · exact hl _ e he
        · exact Or.inl (by simp [Event.status, h4])
      · rw [if_neg h4]
        refine ⟨l, Event.fbPost s.mDisplayId a.fence a.buf
          (E.fbPost u s.mDisplayId a.fence a.buf), by simp [hu], rfl, ?_⟩
        intro e he
        have := hl [] e he
        simpa using this

/-- C7 at a concrete run: display 0, buffer 1 acquired at once, `fbPost`
succeeds and `setOutputBuffer` fails with -22, which is what is returned. -/
theorem C7_error_propagation_witness :
    ¬ (surface0.advanceFrame (scriptedEnv (fun _ => (0, some ⟨1⟩)) 0 0 (-22) 0) []).result = 0 ∧
    ∃ pre ev,
      (surface0.advanceFrame (scriptedEnv (fun _ => (0, some ⟨1⟩)) 0 0 (-22) 0) []).trace =
        [] ++ pre ++ [ev] ∧
      ev.status =
        some (surface0.advanceFrame (scriptedEnv (fun _ => (0, some ⟨1⟩)) 0 0 (-22) 0) []).result ∧
      ∀ e ∈ pre, NotFailed (scriptedEnv (fun _ => (0, some ⟨1⟩)) 0 0 (-22) 0) pre e :=
  ⟨by decide,
   (C7_error_propagation (scriptedEnv (fun _ => (0, some ⟨1⟩)) 0 0 (-22) 0) surface0 []
    (by decide) (by decide)).2⟩

/-- C8. On an Interposed surface holding a buffer, `onFrameCommitted` makes
exactly three collaborator calls, in this order: `getAndResetReleaseFence` with
the surface's display id, `getLastRetireFence` with the surface's display id,
and `releaseBuffer` with the fence `Fence::merge(label, fbFence, outFence)`
where `fbFence` and `outFence` are what those two calls returned, the release
fence first.  No other collaborator call is made. -/
theorem C8_onFrameCommitted_calls (E : Env) (s : VirtualDisplaySurface) (t : Trace)
    (hI : s.mInterposer ≠ none) (hH : s.mAcquiredBuffer ≠ none) :
    ∃ fbFence outFence ret,
      fbFence = E.getAndResetReleaseFence t s.mDisplayId ∧
      outFence = E.getLastRetireFence
        (t ++ [Event.getAndResetReleaseFence s.mDisplayId fbFence]) s.mDisplayId ∧
      (s.onFrameCommitted E t).2 =
        t ++ [Event.getAndResetReleaseFence s.mDisplayId fbFence,
              Event.getLastRetireFence s.mDisplayId outFence,
              Event.releaseBuffer (E.merge (hwcDoneLabel s.mName) fbFence outFence) ret] := by
  rw [onFrameCommitted_of_held E s t hI hH]
  refine ⟨E.getAndResetReleaseFence t s.mDisplayId, _, ?_, rfl, rfl, ?_⟩
  · exact E.releaseBuffer
      (t ++ [Event.getAndResetReleaseFence s.mDisplayId
          (E.getAndResetReleaseFence t s.mDisplayId)] ++
        [Event.getLastRetireFence s.mDisplayId
          (E.getLastRetireFence (t ++ [Event.getAndResetReleaseFence s.mDisplayId
            (E.getAndResetReleaseFence t s.mDisplayId)]) s.mDisplayId)])
      (E.merge (hwcDoneLabel s.mName) (E.getAndResetReleaseFence t s.mDisplayId)
        (E.getLastRetireFence (t ++ [Event.getAndResetReleaseFence s.mDisplayId
          (E.getAndResetReleaseFence t s.mDisplayId)]) s.mDisplayId))
  · simp

/-- C8 at a concrete state: display 0 holding buffer 9; the two HWC fences have
handles 10 and 20 and the scripted merge adds the handles. -/
theorem C8_onFrameCommitted_calls_witness :
    ∃ ret, (({ surface0 with mAcquiredBuffer := some ⟨9⟩ } : VirtualDisplaySurface).onFrameCommitted
        (scriptedEnv (fun _ => (0, some ⟨1⟩)) 0 0 0 0) []).2 =
      [Event.getAndResetReleaseFence 0 (some ⟨10⟩), Event.getLastRetireFence 0 (some ⟨20⟩),
        Event.releaseBuffer (some ⟨30⟩) ret] := by
  obtain ⟨fb, out, ret, h1, h2, h3⟩ :=
    C8_onFrameCommitted_calls (scriptedEnv (fun _ => (0, some ⟨1⟩)) 0 0 0 0)
      { surface0 with mAcquiredBuffer := some ⟨9⟩ } [] (by decide) (by decide)
  subst h1 h2
  exact ⟨ret, h3⟩

/-- C9. On an Interposed surface holding a buffer, whatever `releaseBuffer`
returns: after `onFrameCommitted` the held slot is empty, the surface is the
old one with the slot cleared (so it is the same in any two worlds and from
any two traces, whatever the release status), and the call reports no status
to its caller. -/
theorem C9_release_status_ignored (E E' : Env) (s : VirtualDisplaySurface) (t t' : Trace)
    (hI : s.mInterposer ≠ none) (hH : s.mAcquiredBuffer ≠ none) :
    (s.onFrameCommitted E t).1.mAcquiredBuffer = none ∧
    (s.onFrameCommitted E t).1 = { s with mAcquiredBuffer := none } ∧
    (s.onFrameCommitted E t).1 = (s.onFrameCommitted E' t').1 ∧
    (step E Op.onFrameCommitted s t).1.ret = none := by
  rw [onFrameCommitted_of_held E s t hI hH, onFrameCommitted_of_held E' s t' hI hH]
  exact ⟨rfl, rfl, rfl, rfl⟩

/-- C9 at a concrete state: display 0 holding buffer 9, with `releaseBuffer`
returning 0 in one world and -32 in the other. -/
theorem C9_release_status_ignored_witness :
    (({ surface0 with mAcquiredBuffer := some ⟨9⟩ } : VirtualDisplaySurface).onFrameCommitted
        (scriptedEnv (fun _ => (0, some ⟨1⟩)) 0 0 0 (-32)) []).1.mAcquiredBuffer = none ∧
    (({ surface0 with mAcquiredBuffer := some ⟨9⟩ } : VirtualDisplaySurface).onFrameCommitted
        (scriptedEnv (fun _ => (0, some ⟨1⟩)) 0 0 0 (-32)) []).1 =
      (({ surface0 with mAcquiredBuffer := some ⟨9⟩ } : VirtualDisplaySurface).onFrameCommitted
        (scriptedEnv (fun _ => (0, some ⟨1⟩)) 0 0 0 0) []).1 :=
  ⟨(C9_release_status_ignored (scriptedEnv (fun _ => (0, some ⟨1⟩)) 0 0 0 (-32))
      (scriptedEnv (fun _ => (0, some ⟨1⟩)) 0 0 0 0)
      { surface0 with mAcquiredBuffer := some ⟨9⟩ } [] [] (by decide) (by decide)).1,
   (C9_release_status_ignored (scriptedEnv (fun _ => (0, some ⟨1⟩)) 0 0 0 (-32))
      (scriptedEnv (fun _ => (0, some ⟨1⟩)) 0 0 0 0)
      { surface0 with mAcquiredBuffer := some ⟨9⟩ } [] [] (by decide) (by decide)).2.2.1⟩

/-- C10. Idempotent commit.  In every state with no buffer held, in either
mode, `onFrameCommitted` leaves the surface unchanged and makes no collaborator
call (the trace is unchanged); hence from every state, calling
`onFrameCommitted` twice in a row yields the same surface and the same trace
as calling it once.  The freshly constructed surface is one such state. -/
theorem C10_idempotent_commit (E : Env) :
    (∀ (s : VirtualDisplaySurface) (t : Trace), s.mAcquiredBuffer = none →
      s.onFrameCommitted E t = (s, t)) ∧
    (∀ (hwc : HWComposer) (d : Int) (sink : sp SinkProducer) (name : String8) (t : Trace),
      (VirtualDisplaySurface.construct hwc d sink name).onFrameCommitted E t =
        (VirtualDisplaySurface.construct hwc d sink name, t)) ∧
    (∀ (s : VirtualDisplaySurface) (t : Trace),
      (s.onFrameCommitted E t).1.onFrameCommitted E (s.onFrameCommitted E t).2 =
        s.onFrameCommitted E t) := by
  refine ⟨fun s t hN => onFrameCommitted_of_idle E s t hN,
    fun hwc d sink name t =>
      onFrameCommitted_of_idle E _ t (construct_mAcquiredBuffer hwc d sink name),
    fun s t => ?_⟩
  by_cases hN : s.mAcquiredBuffer = none
  · rw [onFrameCommitted_of_idle E s t hN, onFrameCommitted_of_idle E s t hN]
  · by_cases hI : s.mInterposer = none
    · rw [onFrameCommitted_of_direct E s t hI, onFrameCommitted_of_direct E s t hI]
    · rw [onFrameCommitted_of_held E s t hI hN]
      exact onFrameCommitted_of_idle E _ _ rfl

/-- C10 at a concrete state: the freshly constructed surface of display 0. -/
theorem C10_idempotent_commit_witness :
    surface0.mAcquiredBuffer = none ∧
    surface0.onFrameCommitted (scriptedEnv (fun _ => (0, some ⟨1⟩)) 0 0 0 0) [] =
      (surface0, []) :=
  ⟨by decide,
   (C10_idempotent_commit (scriptedEnv (fun _ => (0, some ⟨1⟩)) 0 0 0 0)).1 surface0 []
    (by decide)⟩

/-! ## Modes, construction and destruction -/

theorem construct_mInterposer (hwc : HWComposer) (d : Int) (sink : sp SinkProducer)
    (name : String8) :
    (VirtualDisplaySurface.construct hwc d sink name).mInterposer =
      if 0 ≤ d then some ⟨sink, name⟩ else none := by
  unfold VirtualDisplaySurface.construct
  split_ifs <;> rfl

theorem construct_mSourceProducer (hwc : HWComposer) (d : Int) (sink : sp SinkProducer)
    (name : String8) :
    (VirtualDisplaySurface.construct hwc d sink name).mSourceProducer =
      if 0 ≤ d then some (IGraphicBufferProducer.ofInterposer ⟨sink, name⟩)
      else sink.map IGraphicBufferProducer.ofSink := by
  unfold VirtualDisplaySurface.construct
  split_ifs <;> rfl

/-- In Direct mode every operation leaves surface and trace as they are, and
`advanceFrame` reports `NO_ERROR`. -/
theorem step_of_direct (E : Env) (op : Op) (s : VirtualDisplaySurface) (t : Trace)
    (hD : s.mInterposer = none) :
    (step E op s t).2 = (s, t) ∧
    ((step E op s t).1.op = Op.advanceFrame → (step E op s t).1.ret = some E.NO_ERROR) := by
  cases op with
  | advanceFrame => simp [step, advanceFrame_of_direct E s t hD]
  | onFrameCommitted => simp [step, onFrameCommitted_of_direct E s t hD]
  | compositionComplete => simp [step, VirtualDisplaySurface.compositionComplete]

theorem run_of_direct (E : Env) (ops : List Op) (s : VirtualDisplaySurface) (t : Trace)
    (hD : s.mInterposer = none) :
    (run E ops s t).2 = (s, t) ∧
    ∀ e ∈ (run E ops s t).1, e.op = Op.advanceFrame → e.ret = some E.NO_ERROR := by
  induction ops with
  | nil => exact ⟨rfl, by simp [run]⟩
  | cons op ops ih =>
    obtain ⟨h1, h2⟩ := step_of_direct E op s t hD
    have hs : (step E op s t).2.1 = s := by rw [h1]
    have ht : (step E op s t).2.2 = t := by rw [h1]
    simp only [run, hs, ht]
    refine ⟨ih.1, ?_⟩
    intro e he
    simp only [List.mem_cons] at he
    rcases he with rfl | he
    · exact h2
    · exact ih.2 e he

theorem run_mInterposer (E : Env) (ops : List Op) :
    ∀ (s : VirtualDisplaySurface) (t : Trace),
      (run E ops s t).2.1.mInterposer = s.mInterposer := by
  induction ops with
  | nil => intro s t; rfl
  | cons op ops ih =>
    intro s t
    simp only [run]
    rw [ih, step_mInterposer]

theorem advanceFrame_mSourceProducer (E : Env) (s : VirtualDisplaySurface) (t : Trace) :
    (s.advanceFrame E t).surface.mSourceProducer = s.mSourceProducer := by
  by_cases hI : s.mInterposer = none
  · rw [advanceFrame_of_direct E s t hI]
  · by_cases hH : s.mAcquiredBuffer = none
    · rw [advanceFrame_of_idle E s t hI hH]
      split_ifs <;> simp [advanceFramePost_surface]
    · rw [advanceFrame_of_held E s t hI hH]

theorem onFrameCommitted_mSourceProducer (E : Env) (s : VirtualDisplaySurface) (t : Trace) :
    (s.onFrameCommitted E t).1.mSourceProducer = s.mSourceProducer := by
  by_cases hI : s.mInterposer = none
  · rw [onFrameCommitted_of_direct E s t hI]
  · by_cases hH : s.mAcquiredBuffer = none
    · rw [onFrameCommitted_of_idle E s t hH]
    · rw [onFrameCommitted_of_held E s t hI hH]

theorem run_mSourceProducer (E : Env) (ops : List Op) :
    ∀ (s : VirtualDisplaySurface) (t : Trace),
      (run E ops s t).2.1.mSourceProducer = s.mSourceProducer := by
  induction ops with
  | nil => intro s t; rfl
  | cons op ops ih =>
    intro s t
    simp only [run]
    rw [ih]
    cases op with
    | advanceFrame => exact advanceFrame_mSourceProducer E s t
    | onFrameCommitted => exact onFrameCommitted_mSourceProducer E s t
    | compositionComplete => rfl

/-- A surface without interposer holds no buffer: this is true of a fresh
surface and no sequence of operations breaks it. -/
theorem run_held_interposed (E : Env) (ops : List Op) (s : VirtualDisplaySurface) (t : Trace)
    (hinv : s.mInterposer = none → s.mAcquiredBuffer = none) :
    (run E ops s t).2.1.mInterposer = none → (run E ops s t).2.1.mAcquiredBuffer = none := by
  intro h
  rw [run_mInterposer] at h
  rw [(run_of_direct E ops s t h).1]
  exact hinv h

theorem destructor_of_held (E : Env) (s : VirtualDisplaySurface) (t : Trace)
    (hI : s.mInterposer ≠ none) (hH : s.mAcquiredBuffer ≠ none) :
    s.destructor E t =
      some (t ++ [Event.releaseBuffer E.NO_FENCE (E.releaseBuffer t E.NO_FENCE)]) := by
  cases hi : s.mInterposer with
  | none => exact absurd hi hI
  | some i =>
    cases hb : s.mAcquiredBuffer with
    | none => exact absurd hb hH
    | some b => simp [VirtualDisplaySurface.destructor, hi, hb]

theorem destructor_of_idle (E : Env) (s : VirtualDisplaySurface) (t : Trace)
    (hN : s.mAcquiredBuffer = none) :
    s.destructor E t = some t := by
  simp [VirtualDisplaySurface.destructor, hN]

/-- C11. Mode isolation.  For a surface constructed with a display id below 0
(Direct mode) and for every sequence of calls: the surface and the collaborator
trace after the sequence are those before it, so no call in it reaches the HWC
binding or an interposer and no field changes, the held slot included; every
`advanceFrame` of the sequence returns `NO_ERROR`; and a single `advanceFrame`
or `onFrameCommitted` returns the surface and the trace unchanged. -/
theorem C11_mode_isolation (E : Env) (hwc : HWComposer) (d : Int) (sink : sp SinkProducer)
    (name : String8) (hd : d < 0) (ops : List Op) (t : Trace) :
    (run E ops (VirtualDisplaySurface.construct hwc d sink name) t).2 =
      (VirtualDisplaySurface.construct hwc d sink name, t) ∧
    (∀ e ∈ (run E ops (VirtualDisplaySurface.construct hwc d sink name) t).1,
      e.op = Op.advanceFrame → e.ret = some E.NO_ERROR) ∧
    (VirtualDisplaySurface.construct hwc d sink name).advanceFrame E t =
      ⟨E.NO_ERROR, VirtualDisplaySurface.construct hwc d sink name, t⟩ ∧
    (VirtualDisplaySurface.construct hwc d sink name).onFrameCommitted E t =
      (VirtualDisplaySurface.construct hwc d sink name, t) := by
  have hD : (VirtualDisplaySurface.construct hwc d sink name).mInterposer = none := by
    rw [construct_mInterposer, if_neg (not_le.mpr hd)]
  exact ⟨(run_of_direct E ops _ t hD).1, (run_of_direct E ops _ t hD).2,
    advanceFrame_of_direct E _ t hD, onFrameCommitted_of_direct E _ t hD⟩

/-- C11 at a concrete run: display -1 and the calls `advanceFrame`,
`onFrameCommitted`, `advanceFrame`, in a world where every collaborator would
fail. -/
theorem C11_mode_isolation_witness :
    (run (scriptedEnv (fun _ => (-5, none)) (-5) (-5) (-5) (-5))
        [Op.advanceFrame, Op.onFrameCommitted, Op.advanceFrame] surfaceDirect []).2 =
      (surfaceDirect, []) ∧
    surfaceDirect.advanceFrame (scriptedEnv (fun _ => (-5, none)) (-5) (-5) (-5) (-5)) [] =
      ⟨0, surfaceDirect, []⟩ :=
  ⟨(C11_mode_isolation (scriptedEnv (fun _ => (-5, none)) (-5) (-5) (-5) (-5)) ⟨1⟩ (-1)
      (some ⟨5⟩) "enc".toList (by decide)
      [Op.advanceFrame, Op.onFrameCommitted, Op.advanceFrame] []).1,
   (C11_mode_isolation (scriptedEnv (fun _ => (-5, none)) (-5) (-5) (-5) (-5)) ⟨1⟩ (-1)
      (some ⟨5⟩) "enc".toList (by decide)
      [Op.advanceFrame, Op.onFrameCommitted, Op.advanceFrame] []).2.2.1⟩

/-- C12. Destruction safety.  Destroying an Interposed surface whose held slot is
non-empty makes exactly one collaborator call, `releaseBuffer(Fence::NO_FENCE)`,
whatever status that call returns; destroying a surface whose held slot is
empty makes no collaborator call at all.  Every surface reached from the
constructor by a sequence of frame operations and holding a buffer is such an
Interposed surface, so its destruction makes exactly that one call. -/
theorem C12_destruction (E : Env) :
    (∀ (s : VirtualDisplaySurface) (t : Trace), s.mInterposer ≠ none →
      s.mAcquiredBuffer ≠ none →
      s.destructor E t =
        some (t ++ [Event.releaseBuffer E.NO_FENCE (E.releaseBuffer t E.NO_FENCE)])) ∧
    (∀ (s : VirtualDisplaySurface) (t : Trace), s.mAcquiredBuffer = none →
      s.destructor E t = some t) ∧
    (∀ (hwc : HWComposer) (d : Int) (sink : sp SinkProducer) (name : String8)
        (ops : List Op) (t : Trace),
      (run E ops (VirtualDisplaySurface.construct hwc d sink name) t).2.1.mAcquiredBuffer ≠
        none →
      (run E ops (VirtualDisplaySurface.construct hwc d sink name) t).2.1.destructor E
          (run E ops (VirtualDisplaySurface.construct hwc d sink name) t).2.2 =
        some ((run E ops (VirtualDisplaySurface.construct hwc d sink name) t).2.2 ++
          [Event.releaseBuffer E.NO_FENCE
            (E.releaseBuffer (run E ops (VirtualDisplaySurface.construct hwc d sink name) t).2.2
              E.NO_FENCE)])) := by
  refine ⟨fun s t hI hH => destructor_of_held E s t hI hH,
    fun s t hN => destructor_of_idle E s t hN, ?_⟩
  intro hwc d sink name ops t hH
  refine destructor_of_held E _ _ ?_ hH
  intro hI
  exact hH (run_held_interposed E ops _ t
    (fun _ => construct_mAcquiredBuffer hwc d sink name) hI)

/-- C12 at concrete states: display 0 holding buffer 9 with a failing
`releaseBuffer` (status -32), and the fresh surface of display 0. -/
theorem C12_destruction_witness :
    ({ surface0 with mAcquiredBuffer := some ⟨9⟩ } : VirtualDisplaySurface).destructor
        (scriptedEnv (fun _ => (0, some ⟨1⟩)) 0 0 0 (-32)) [] =
      some ([] ++ [Event.releaseBuffer (some ⟨0⟩) (-32)]) ∧
    surface0.destructor (scriptedEnv (fun _ => (0, some ⟨1⟩)) 0 0 0 (-32)) [] = some [] :=
  ⟨(C12_destruction (scriptedEnv (fun _ => (0, some ⟨1⟩)) 0 0 0 (-32))).1
      { surface0 with mAcquiredBuffer := some ⟨9⟩ } [] (by decide) (by decide),
   (C12_destruction (scriptedEnv (fun _ => (0, some ⟨1⟩)) 0 0 0 (-32))).2.1
      surface0 [] (by decide)⟩

/-- C13. Mode selection at construction.  For every display id `d`, sink and
name: the constructed surface has an interposer if and only if `d >= 0`; when
`d >= 0` that interposer is the one created around the sink and
`getIGraphicBufferProducer` returns it; when `d < 0` `getIGraphicBufferProducer`
returns the sink itself; the held slot is empty after construction; and after
any sequence of frame operations `getIGraphicBufferProducer` still returns the
same endpoint (it is a pure read of `mSourceProducer`). -/
theorem C13_mode_selection (E : Env) (hwc : HWComposer) (d : Int) (sink : sp SinkProducer)
    (name : String8) :
    ((VirtualDisplaySurface.construct hwc d sink name).mInterposer ≠ none ↔ 0 ≤ d) ∧
    (0 ≤ d →
      (VirtualDisplaySurface.construct hwc d sink name).mInterposer = some ⟨sink, name⟩ ∧
      (VirtualDisplaySurface.construct hwc d sink name).getIGraphicBufferProducer =
        some (IGraphicBufferProducer.ofInterposer ⟨sink, name⟩)) ∧
    (d < 0 →
      (VirtualDisplaySurface.construct hwc d sink name).getIGraphicBufferProducer =
        sink.map IGraphicBufferProducer.ofSink) ∧
    (VirtualDisplaySurface.construct hwc d sink name).mAcquiredBuffer = none ∧
    (∀ (ops : List Op) (t : Trace),
      (run E ops (VirtualDisplaySurface.construct hwc d sink name)
          t).2.1.getIGraphicBufferProducer =
        (VirtualDisplaySurface.construct hwc d sink name).getIGraphicBufferProducer) := by
  refine ⟨?_, ?_, ?_, construct_mAcquiredBuffer hwc d sink name, ?_⟩
  · rw [construct_mInterposer]
    by_cases h : 0 ≤ d
    · simp [h]
    · simp [h]
  · intro h
    unfold VirtualDisplaySurface.getIGraphicBufferProducer
    rw [construct_mInterposer, construct_mSourceProducer, if_pos h, if_pos h]
    exact ⟨rfl, rfl⟩
  · intro h
    unfold VirtualDisplaySurface.getIGraphicBufferProducer
    rw [construct_mSourceProducer, if_neg (not_le.mpr h)]
  · intro ops t
    unfold VirtualDisplaySurface.getIGraphicBufferProducer
    exact run_mSourceProducer E ops _ t

/-- C13 at concrete inputs: display 0 exposes the interposer around sink 5,
display -1 exposes sink 5 itself. -/
theorem C13_mode_selection_witness :
    surface0.getIGraphicBufferProducer =
      some (IGraphicBufferProducer.ofInterposer ⟨some ⟨5⟩, "enc".toList⟩) ∧
    surfaceDirect.getIGraphicBufferProducer = some (IGraphicBufferProducer.ofSink ⟨5⟩) :=
  ⟨((C13_mode_selection (scriptedEnv (fun _ => (0, some ⟨1⟩)) 0 0 0 0) ⟨1⟩ 0 (some ⟨5⟩)
      "enc".toList).2.1 (by decide)).2,
   (C13_mode_selection (scriptedEnv (fun _ => (0, some ⟨1⟩)) 0 0 0 0) ⟨1⟩ (-1) (some ⟨5⟩)
      "enc".toList).2.2.1 (by decide)⟩

/-! ## The buffer account -/

theorem countAcquireOK_append (E : Env) (t l : Trace) :
    countAcquireOK E (t ++ l) = countAcquireOK E t + countAcquireOK E l := by
  induction t with
  | nil => simp [countAcquireOK]
  | cons e t ih =>
    cases e with
    | acquireBuffer r b f =>
      by_cases hr : r = E.NO_ERROR
      · simp [countAcquireOK, ih, hr]
        omega
      · simp [countAcquireOK, ih, hr]
    | pullEmptyBuffer r => simp [countAcquireOK, ih]
    | releaseBuffer f r => simp [countAcquireOK, ih]
    | fbPost i f b r => simp [countAcquireOK, ih]
    | setOutputBuffer i f b r => simp [countAcquireOK, ih]
    | getAndResetReleaseFence i r => simp [countAcquireOK, ih]
    | getLastRetireFence i r => simp [countAcquireOK, ih]

theorem countRelease_append (t l : Trace) :
    countRelease (t ++ l) = countRelease t + countRelease l := by
  induction t with
  | nil => simp [countRelease]
  | cons e t ih =>
    cases e <;> simp [countRelease, ih]
    omega

theorem advanceFramePost_account (E : Env) (s : VirtualDisplaySurface) (a : AcquireResult)
    (u : Trace) :
    countAcquireOK E (VirtualDisplaySurface.advanceFramePost E s a u).trace =
      countAcquireOK E u ∧
    countRelease (VirtualDisplaySurface.advanceFramePost E s a u).trace = countRelease u := by
  unfold VirtualDisplaySurface.advanceFramePost
  dsimp only
  split_ifs <;>
    simp [countAcquireOK_append, countRelease_append, countAcquireOK, countRelease]

/-- A failed acquisition adds no successful `acquireBuffer` and no
`releaseBuffer` call. -/
theorem acquisitionFails_account (E : Env) (hk : E.NO_BUFFER_AVAILABLE ≠ E.NO_ERROR)
    (t : Trace) (r : status_t) (u : Trace) (h : AcquisitionFails E t r u) :
    countAcquireOK E u = countAcquireOK E t ∧ countRelease u = countRelease t := by
  rcases h with ⟨_, h2, _, rfl⟩ | ⟨h1, _, _, rfl⟩ | ⟨h1, _, h3, _, rfl⟩
  · simp [afterFirstAcquire, countAcquireOK_append, countRelease_append, countAcquireOK,
      countRelease, h2]
  · have hf : (firstAcquire E t).status ≠ E.NO_ERROR := by rw [h1]; exact hk
    simp [afterPull, afterFirstAcquire, countAcquireOK_append, countRelease_append,
      countAcquireOK, countRelease, hf]
  · have hf : (firstAcquire E t).status ≠ E.NO_ERROR := by rw [h1]; exact hk
    simp [afterRetry, afterPull, afterFirstAcquire, countAcquireOK_append,
      countRelease_append, countAcquireOK, countRelease, hf, h3]

/-- A successful acquisition adds exactly one successful `acquireBuffer` call
and no `releaseBuffer` call. -/
theorem acquisitionSucceeds_account (E : Env) (hk : E.NO_BUFFER_AVAILABLE ≠ E.NO_ERROR)
    (t : Trace) (a : AcquireResult) (u : Trace) (h : AcquisitionSucceeds E t a u) :
    countAcquireOK E u = countAcquireOK E t + 1 ∧ countRelease u = countRelease t := by
  rcases h with ⟨_, h2, _, rfl⟩ | ⟨h1, _, h3, _, rfl⟩
  · simp [afterFirstAcquire, countAcquireOK_append, countRelease_append, countAcquireOK,
      countRelease, h2]
  · have hf : (firstAcquire E t).status ≠ E.NO_ERROR := by rw [h1]; exact hk
    simp [afterRetry, afterPull, afterFirstAcquire, countAcquireOK_append,
      countRelease_append, countAcquireOK, countRelease, hf, h3]

/-- The out-parameters of a successful acquisition are those of an
`acquireBuffer` call that returned `NO_ERROR`. -/
theorem acquisitionSucceeds_buf (E : Env) (hsucc : SuccessfulAcquireYieldsBuffer E)
    (t : Trace) (a : AcquireResult) (u : Trace) (h : AcquisitionSucceeds E t a u) :
    a.buf ≠ none := by
  rcases h with ⟨_, h2, rfl, _⟩ | ⟨_, _, h3, rfl, _⟩
  · exact hsucc _ _ _ h2
  · exact hsucc _ _ _ h3

theorem advanceFrame_balanced (E : Env) (hk : E.NO_BUFFER_AVAILABLE ≠ E.NO_ERROR)
    (hfail : FailedAcquireYieldsNone E) (hsucc : SuccessfulAcquireYieldsBuffer E)
    (s : VirtualDisplaySurface) (t : Trace) (hB : Balanced E s t) :
    Balanced E (s.advanceFrame E t).surface (s.advanceFrame E t).trace := by
  by_cases hI : s.mInterposer = none
  · rw [advanceFrame_of_direct E s t hI]
    exact hB
  · by_cases hN : s.mAcquiredBuffer = none
    · rcases acquisition_total E t with ⟨r, u, h⟩ | ⟨a, u, h⟩
      · obtain ⟨_, _, htr, _, _⟩ := advanceFrame_of_acquisition_fails E s t hI hN r u h
        obtain ⟨h1, h2⟩ := acquisitionFails_account E hk t r u h
        rw [advanceFrame_fails_surface E hk hfail s t hI hN r u h, htr]
        unfold Balanced at hB ⊢
        rw [h1, h2]
        exact hB
      · obtain ⟨_, _, heq⟩ := advanceFrame_of_acquisition_succeeds E s t hI hN a u h
        obtain ⟨h1, h2⟩ := acquisitionSucceeds_account E hk t a u h
        obtain ⟨h3, h4⟩ := advanceFramePost_account E s a u
        have hb := acquisitionSucceeds_buf E hsucc t a u h
        unfold Balanced at hB ⊢
        rw [heq, h3, h4, h1, h2, advanceFramePost_surface]
        rw [if_pos hN] at hB
        simp only [hb, if_false]
        omega
    · rw [advanceFrame_of_held E s t hI hN]
      exact hB

theorem onFrameCommitted_balanced (E : Env) (s : VirtualDisplaySurface) (t : Trace)
    (hB : Balanced E s t) :
    Balanced E (s.onFrameCommitted E t).1 (s.onFrameCommitted E t).2 := by
  by_cases hN : s.mAcquiredBuffer = none
  · rw [onFrameCommitted_of_idle E s t hN]
    exact hB
  · by_cases hI : s.mInterposer = none
    · rw [onFrameCommitted_of_direct E s t hI]
      exact hB
    · rw [onFrameCommitted_of_held E s t hI hN]
      unfold Balanced at hB ⊢
      rw [if_neg hN] at hB
      simp [countAcquireOK_append, countRelease_append, countAcquireOK, countRelease, hB]

theorem run_balanced (E : Env) (hk : E.NO_BUFFER_AVAILABLE ≠ E.NO_ERROR)
    (hfail : FailedAcquireYieldsNone E) (hsucc : SuccessfulAcquireYieldsBuffer E)
    (ops : List Op) :
    ∀ (s : VirtualDisplaySurface) (t : Trace), Balanced E s t →
      Balanced E (run E ops s t).2.1 (run E ops s t).2.2 := by
  induction ops with
  | nil => intro s t hB; exact hB
  | cons op ops ih =>
    intro s t hB
    simp only [run]
    apply ih
    cases op with
    | advanceFrame => exact advanceFrame_balanced E hk hfail hsucc s t hB
    | onFrameCommitted => exact onFrameCommitted_balanced E s t hB
    | compositionComplete => exact hB

theorem onFrameCommitted_surface (E : Env) (s : VirtualDisplaySurface) (t : Trace)
    (hI : s.mInterposer ≠ none) :
    (s.onFrameCommitted E t).1 = { s with mAcquiredBuffer := none } := by
  by_cases hN : s.mAcquiredBuffer = none
  · rw [onFrameCommitted_of_idle E s t hN]
    exact (surface_with_none s hN).symm
  · rw [onFrameCommitted_of_held E s t hI hN]

/-- With no buffer held, `advanceFrame` makes at least one collaborator call and
returns the status of the last one it made. -/
theorem advanceFrame_last_call (E : Env) (s : VirtualDisplaySurface) (t : Trace)
    (hI : s.mInterposer ≠ none) (hN : s.mAcquiredBuffer = none) :
    ∃ pre ev, (s.advanceFrame E t).trace = t ++ pre ++ [ev] ∧
      ev.status = some (s.advanceFrame E t).result := by
  rcases acquisition_total E t with ⟨r, u, h⟩ | ⟨a, u, h⟩
  · obtain ⟨_, hres, htr, _, _⟩ := advanceFrame_of_acquisition_fails E s t hI hN r u h
    rw [hres, htr]
    rcases h with ⟨_, _, rfl, rfl⟩ | ⟨_, _, rfl, rfl⟩ | ⟨_, _, _, rfl, rfl⟩
    · exact ⟨[], Event.acquireBuffer (firstAcquire E t).status (firstAcquire E t).buf
        (firstAcquire E t).fence, by simp [afterFirstAcquire], rfl⟩
    · exact ⟨[Event.acquireBuffer (firstAcquire E t).status (firstAcquire E t).buf
        (firstAcquire E t).fence], Event.pullEmptyBuffer (pullAnswer E t),
        by simp [afterPull, afterFirstAcquire], rfl⟩
    · exact ⟨[Event.acquireBuffer (firstAcquire E t).status (firstAcquire E t).buf
        (firstAcquire E t).fence, Event.pullEmptyBuffer (pullAnswer E t)],
        Event.acquireBuffer (retryAcquire E t).status (retryAcquire E t).buf
          (retryAcquire E t).fence,
        by simp [afterRetry, afterPull, afterFirstAcquire], rfl⟩
  · obtain ⟨ha, ⟨l, hu, _⟩, heq⟩ := advanceFrame_of_acquisition_succeeds E s t hI hN a u h
    rw [heq, advanceFramePost_of_ok E s a u ha]
    by_cases h4 : E.fbPost u s.mDisplayId a.fence a.buf = E.NO_ERROR
    · rw [if_pos h4]
      exact ⟨l ++ [Event.fbPost s.mDisplayId a.fence a.buf
          (E.fbPost u s.mDisplayId a.fence a.buf)],
        Event.setOutputBuffer s.mDisplayId a.fence a.buf
          (E.setOutputBuffer (u ++ [Event.fbPost s.mDisplayId a.fence a.buf
            (E.fbPost u s.mDisplayId a.fence a.buf)]) s.mDisplayId a.fence a.buf),
        by simp [hu], rfl⟩
    · rw [if_neg h4]
      exact ⟨l, Event.fbPost s.mDisplayId a.fence a.buf
        (E.fbPost u s.mDisplayId a.fence a.buf), by simp [hu], rfl⟩

/-- C15. The frame cycle is reusable.  From every Interposed surface state, so
in particular from every state reached by any sequence of calls, whether or not
an earlier `advanceFrame` failed at acquisition, at `fbPost` or at
`setOutputBuffer`: after one `onFrameCommitted` call, an `advanceFrame` whose
acquisition, `fbPost` and `setOutputBuffer` all return `NO_ERROR` returns
`NO_ERROR` and holds the newly acquired buffer. -/
theorem C15_cycle_reusable (E : Env) (s : VirtualDisplaySurface) (t : Trace)
    (hI : s.mInterposer ≠ none) (a : AcquireResult) (u : Trace)
    (hacq : AcquisitionSucceeds E (s.onFrameCommitted E t).2 a u)
    (hpost : E.fbPost u s.mDisplayId a.fence a.buf = E.NO_ERROR)
    (hout : E.setOutputBuffer (u ++ [Event.fbPost s.mDisplayId a.fence a.buf E.NO_ERROR])
      s.mDisplayId a.fence a.buf = E.NO_ERROR) :
    ((s.onFrameCommitted E t).1.advanceFrame E (s.onFrameCommitted E t).2).result =
      E.NO_ERROR ∧
    ((s.onFrameCommitted E t).1.advanceFrame E
      (s.onFrameCommitted E t).2).surface.mAcquiredBuffer = a.buf := by
  have hs := onFrameCommitted_surface E s t hI
  have hI' : (s.onFrameCommitted E t).1.mInterposer ≠ none := by
    rw [onFrameCommitted_mInterposer]; exact hI
  have hN' : (s.onFrameCommitted E t).1.mAcquiredBuffer = none := by rw [hs]
  have hd : (s.onFrameCommitted E t).1.mDisplayId = s.mDisplayId := by rw [hs]
  obtain ⟨ha, _, heq⟩ :=
    advanceFrame_of_acquisition_succeeds E _ _ hI' hN' a u hacq
  rw [heq, advanceFramePost_surface, advanceFramePost_of_ok E _ a u ha, hd, if_pos hpost,
    hpost]
  exact ⟨hout, rfl⟩

/-- C15 at the scenario of the specification: display 0 with buffer 1 always
ready; after `advanceFrame` (success) and `advanceFrame` (rejected), an
`onFrameCommitted` followed by `advanceFrame` succeeds and holds buffer 1. -/
theorem C15_cycle_reusable_witness :
    (run (scriptedEnv (fun _ => (0, some ⟨1⟩)) 0 0 0 0) [Op.advanceFrame, Op.advanceFrame]
        surface0 []).1 = [⟨Op.advanceFrame, some 0⟩, ⟨Op.advanceFrame, some (-38)⟩] ∧
    (((run (scriptedEnv (fun _ => (0, some ⟨1⟩)) 0 0 0 0) [Op.advanceFrame, Op.advanceFrame]
        surface0 []).2.1.onFrameCommitted (scriptedEnv (fun _ => (0, some ⟨1⟩)) 0 0 0 0)
        (run (scriptedEnv (fun _ => (0, some ⟨1⟩)) 0 0 0 0) [Op.advanceFrame, Op.advanceFrame]
          surface0 []).2.2).1.advanceFrame (scriptedEnv (fun _ => (0, some ⟨1⟩)) 0 0 0 0)
      ((run (scriptedEnv (fun _ => (0, some ⟨1⟩)) 0 0 0 0) [Op.advanceFrame, Op.advanceFrame]
        surface0 []).2.1.onFrameCommitted (scriptedEnv (fun _ => (0, some ⟨1⟩)) 0 0 0 0)
        (run (scriptedEnv (fun _ => (0, some ⟨1⟩)) 0 0 0 0) [Op.advanceFrame, Op.advanceFrame]
          surface0 []).2.2).2).result = 0 :=
  ⟨by decide,
   (C15_cycle_reusable (scriptedEnv (fun _ => (0, some ⟨1⟩)) 0 0 0 0)
      (run (scriptedEnv (fun _ => (0, some ⟨1⟩)) 0 0 0 0) [Op.advanceFrame, Op.advanceFrame]
        surface0 []).2.1
      (run (scriptedEnv (fun _ => (0, some ⟨1⟩)) 0 0 0 0) [Op.advanceFrame, Op.advanceFrame]
        surface0 []).2.2
      (by decide) ⟨0, some ⟨1⟩, some ⟨7⟩⟩ _
      (Or.inl ⟨by decide, rfl, rfl, rfl⟩) rfl rfl).1⟩

/-- C16, refuted as stated: on display 0 with nothing held, `acquireBuffer`
succeeds and `fbPost` itself returns `INVALID_OPERATION` (-38); `advanceFrame`
returns `INVALID_OPERATION` although no buffer was held when it was called. -/
theorem C16_counterexample :
    surface0.mInterposer ≠ none ∧ surface0.mAcquiredBuffer = none ∧
    (scriptedEnv (fun _ => (0, some ⟨1⟩)) 0 (-38) 0 0).INVALID_OPERATION = -38 ∧
    (surface0.advanceFrame (scriptedEnv (fun _ => (0, some ⟨1⟩)) 0 (-38) 0 0) []).result =
      (scriptedEnv (fun _ => (0, some ⟨1⟩)) 0 (-38) 0 0).INVALID_OPERATION ∧
    (surface0.advanceFrame (scriptedEnv (fun _ => (0, some ⟨1⟩)) 0 (-38) 0 0) []).trace =
      [Event.acquireBuffer 0 (some ⟨1⟩) (some ⟨7⟩),
        Event.fbPost 0 (some ⟨7⟩) (some ⟨1⟩) (-38)] := by
  decide

/-- C16, amended.  On an Interposed surface, whatever the collaborators answer:
if a buffer was already held, `advanceFrame` returns `INVALID_OPERATION`; if
none was held and `advanceFrame` returns `INVALID_OPERATION`, then the last
collaborator call it made returned `INVALID_OPERATION` itself.  Hence, when no
collaborator call of this `advanceFrame` returns `INVALID_OPERATION`, it
returns `INVALID_OPERATION` if and only if a buffer was already held. -/
theorem C16_invalid_operation (E : Env) (s : VirtualDisplaySurface) (t : Trace)
    (hI : s.mInterposer ≠ none) :
    (s.mAcquiredBuffer ≠ none → (s.advanceFrame E t).result = E.INVALID_OPERATION) ∧
    (s.mAcquiredBuffer = none → (s.advanceFrame E t).result = E.INVALID_OPERATION →
      ∃ pre ev, (s.advanceFrame E t).trace = t ++ pre ++ [ev] ∧
        ev.status = some E.INVALID_OPERATION) ∧
    ((∀ e ∈ newEvents t (s.advanceFrame E t).trace, e.status ≠ some E.INVALID_OPERATION) →
      ((s.advanceFrame E t).result = E.INVALID_OPERATION ↔ s.mAcquiredBuffer ≠ none)) := by
  refine ⟨fun hH => ?_, fun hN hr => ?_, fun hno => ⟨fun hr => ?_, fun hH => ?_⟩⟩
  · rw [advanceFrame_of_held E s t hI hH]
  · obtain ⟨pre, ev, htr, hst⟩ := advanceFrame_last_call E s t hI hN
    exact ⟨pre, ev, htr, by rw [hst, hr]⟩
  · intro hN
    obtain ⟨pre, ev, htr, hst⟩ := advanceFrame_last_call E s t hI hN
    refine hno ev ?_ (by rw [hst, hr])
    rw [htr, List.append_assoc, newEvents_append]
    simp
  · rw [advanceFrame_of_held E s t hI hH]

/-- C16 amended, at a concrete state: display 0 holding buffer 9. -/
theorem C16_invalid_operation_witness :
    (({ surface0 with mAcquiredBuffer := some ⟨9⟩ } : VirtualDisplaySurface).advanceFrame
        (scriptedEnv (fun _ => (0, some ⟨1⟩)) 0 0 0 0) []).result = -38 :=
  (C16_invalid_operation (scriptedEnv (fun _ => (0, some ⟨1⟩)) 0 0 0 0)
    { surface0 with mAcquiredBuffer := some ⟨9⟩ } [] (by decide)).1 (by decide)

/-- C17. In every surface state, in either mode, `compositionComplete` returns
`NO_ERROR`, makes no collaborator call (the trace is unchanged) and leaves
every field of the surface unchanged. -/
theorem C17_compositionComplete (E : Env) (s : VirtualDisplaySurface) (t : Trace) :
    (s.compositionComplete E t).result = E.NO_ERROR ∧
    (s.compositionComplete E t).trace = t ∧
    (s.compositionComplete E t).surface = s ∧
    (step E Op.compositionComplete s t).2 = (s, t) := by
  exact ⟨rfl, rfl, rfl, rfl⟩

/-- C19. Success path of `advanceFrame`.  On an Interposed surface with no
buffer held, when the acquisition yields buffer `a.buf` and ready-fence
`a.fence` (those of the retried `acquireBuffer` when the first one reported
`NO_BUFFER_AVAILABLE`) and `fbPost` succeeds: after the acquisition calls,
which include no `fbPost` and no `setOutputBuffer`, `advanceFrame` makes
exactly two more calls, `fbPost(mDisplayId, a.fence, a.buf)` and then
`setOutputBuffer(mDisplayId, a.fence, a.buf)`; it returns the status of the
latter, and the held slot afterwards contains `a.buf`. -/
theorem C19_success_path (E : Env) (s : VirtualDisplaySurface) (t : Trace)
    (hI : s.mInterposer ≠ none) (hN : s.mAcquiredBuffer = none)
    (a : AcquireResult) (u : Trace) (hacq : AcquisitionSucceeds E t a u)
    (hpost : E.fbPost u s.mDisplayId a.fence a.buf = E.NO_ERROR) :
    (∃ l, u = t ++ l ∧ ∀ e ∈ l, e.isFbPost = false ∧ e.isSetOutputBuffer = false) ∧
    (s.advanceFrame E t).trace =
      u ++ [Event.fbPost s.mDisplayId a.fence a.buf E.NO_ERROR,
            Event.setOutputBuffer s.mDisplayId a.fence a.buf (s.advanceFrame E t).result] ∧
    (s.advanceFrame E t).result =
      E.setOutputBuffer (u ++ [Event.fbPost s.mDisplayId a.fence a.buf E.NO_ERROR])
        s.mDisplayId a.fence a.buf ∧
    (s.advanceFrame E t).surface.mAcquiredBuffer = a.buf := by
  obtain ⟨ha, hl, heq⟩ := advanceFrame_of_acquisition_succeeds E s t hI hN a u hacq
  rw [heq, advanceFramePost_of_ok E s a u ha, if_pos hpost, hpost]
  exact ⟨hl, by simp, rfl, rfl⟩

/-- C19 at a concrete run: display 0, the queue empty at first (status 2) and
holding buffer 1 after the pull. -/
theorem C19_success_path_witness :
    (surface0.advanceFrame
      (scriptedEnv (fun t => if t.length = 0 then (2, none) else (0, some ⟨1⟩)) 0 0 0 0)
      []).trace =
      [Event.acquireBuffer 2 none (some ⟨7⟩), Event.pullEmptyBuffer 0,
        Event.acquireBuffer 0 (some ⟨1⟩) (some ⟨7⟩)] ++
      [Event.fbPost 0 (some ⟨7⟩) (some ⟨1⟩) 0,
        Event.setOutputBuffer 0 (some ⟨7⟩) (some ⟨1⟩)
          (surface0.advanceFrame
            (scriptedEnv (fun t => if t.length = 0 then (2, none) else (0, some ⟨1⟩)) 0 0 0 0)
            []).result] ∧
    (surface0.advanceFrame
      (scriptedEnv (fun t => if t.length = 0 then (2, none) else (0, some ⟨1⟩)) 0 0 0 0)
      []).surface.mAcquiredBuffer = some ⟨1⟩ :=
  ⟨(C19_success_path
      (scriptedEnv (fun t => if t.length = 0 then (2, none) else (0, some ⟨1⟩)) 0 0 0 0)
      surface0 [] (by decide) (by decide) ⟨0, some ⟨1⟩, some ⟨7⟩⟩
      [Event.acquireBuffer 2 none (some ⟨7⟩), Event.pullEmptyBuffer 0,
        Event.acquireBuffer 0 (some ⟨1⟩) (some ⟨7⟩)]
      (Or.inr ⟨rfl, rfl, rfl, rfl, rfl⟩) rfl).2.1,
   (C19_success_path
      (scriptedEnv (fun t => if t.length = 0 then (2, none) else (0, some ⟨1⟩)) 0 0 0 0)
      surface0 [] (by decide) (by decide) ⟨0, some ⟨1⟩, some ⟨7⟩⟩
      [Event.acquireBuffer 2 none (some ⟨7⟩), Event.pullEmptyBuffer 0,
        Event.acquireBuffer 0 (some ⟨1⟩) (some ⟨7⟩)]
      (Or.inr ⟨rfl, rfl, rfl, rfl, rfl⟩) rfl).2.2.2⟩

/-- C20. Reachable-state invariant.  In every state reached from the constructor
by any sequence of `advanceFrame`, `onFrameCommitted` and `compositionComplete`
calls, a non-empty held slot implies that the interposer exists; so the
destructor's unguarded `mInterposer->releaseBuffer` never goes through a
missing interposer, and a surface constructed with a display id below 0 never
holds a buffer. -/
theorem C20_reachable_invariant (E : Env) (hwc : HWComposer) (d : Int)
    (sink : sp SinkProducer) (name : String8) (ops : List Op) (t : Trace) :
    ((run E ops (VirtualDisplaySurface.construct hwc d sink name) t).2.1.mAcquiredBuffer ≠
        none →
      (run E ops (VirtualDisplaySurface.construct hwc d sink name) t).2.1.mInterposer ≠
        none) ∧
    (run E ops (VirtualDisplaySurface.construct hwc d sink name) t).2.1.destructor E
        (run E ops (VirtualDisplaySurface.construct hwc d sink name) t).2.2 ≠ none ∧
    (d < 0 →
      (run E ops (VirtualDisplaySurface.construct hwc d sink name) t).2.1.mAcquiredBuffer =
        none) := by
  have hinv := run_held_interposed E ops (VirtualDisplaySurface.construct hwc d sink name) t
    (fun _ => construct_mAcquiredBuffer hwc d sink name)
  refine ⟨fun hH hI => hH (hinv hI), ?_, fun hd => ?_⟩
  · by_cases hN : (run E ops (VirtualDisplaySurface.construct hwc d sink name)
        t).2.1.mAcquiredBuffer = none
    · rw [destructor_of_idle E _ _ hN]
      simp
    · rw [destructor_of_held E _ _ (fun hI => hN (hinv hI)) hN]
      simp
  · apply hinv
    rw [run_mInterposer, construct_mInterposer, if_neg (not_le.mpr hd)]

/-- C20 at concrete runs: display -1 holds nothing after `advanceFrame` and
`onFrameCommitted`, and display 0 has its interposer while it holds a buffer. -/
theorem C20_reachable_invariant_witness :
    (run (scriptedEnv (fun _ => (0, some ⟨1⟩)) 0 0 0 0) [Op.advanceFrame, Op.onFrameCommitted]
      (VirtualDisplaySurface.construct ⟨1⟩ (-1) (some ⟨5⟩) "enc".toList)
      []).2.1.mAcquiredBuffer = none ∧
    (run (scriptedEnv (fun _ => (0, some ⟨1⟩)) 0 0 0 0) [Op.advanceFrame]
      (VirtualDisplaySurface.construct ⟨1⟩ 0 (some ⟨5⟩) "enc".toList)
      []).2.1.mInterposer ≠ none :=
  ⟨(C20_reachable_invariant (scriptedEnv (fun _ => (0, some ⟨1⟩)) 0 0 0 0) ⟨1⟩ (-1)
      (some ⟨5⟩) "enc".toList [Op.advanceFrame, Op.onFrameCommitted] []).2.2 (by decide),
   (C20_reachable_invariant (scriptedEnv (fun _ => (0, some ⟨1⟩)) 0 0 0 0) ⟨1⟩ 0
      (some ⟨5⟩) "enc".toList [Op.advanceFrame] []).1 (by decide)⟩

end android
